import Mathlib

/-!
# Mitrasetu chat relay: model adapter, relay handler and token cache

A shallow embedding of

* `backend/utils/bedrockClient.js` (`sendTextMessageToNova`, `bedrockConfig`),
* `backend/controllers/chatController.js` (`sendMessage`),
* `react_frontend/src/utils/backendAuth.js` (`getBackendToken`).

JavaScript values are modelled by `JsVal`, thrown `Error` objects by `JsError`.
Asynchronous collaborators (the Bedrock client, the transcript store, the
encryption utility, `fetch`) are oracles: functions of the history of effects
so far and of their argument, returning either a value or the thrown error.
Every effect is appended to a trace of `Event`s, in program order.
-/

namespace Mitrasetu

/-! ## JavaScript values -/

/-- JavaScript values that can be reached from a JSON payload, plus `undefined`. -/
inductive JsVal where
  | undefined
  | null
  | bool (b : Bool)
  | num (q : ℚ)
  | str (s : String)
  | arr (items : List JsVal)
  | obj (fields : List (String × JsVal))

/-- A thrown `Error` object: its `name`, its `message`, and the
`$metadata.httpStatusCode` an AWS SDK error may carry. -/
structure JsError where
  name : String
  message : String
  httpStatusCode : Option Nat
deriving DecidableEq, Repr

/-- The object built by `new Error(msg)`. -/
def mkError (msg : String) : JsError := ⟨"Error", msg, none⟩

/-- The `TypeError` thrown by reading property `key` of `undefined` or `null`. -/
def typeErrorRead (what key : String) : JsError :=
  ⟨"TypeError", "Cannot read properties of " ++ what ++ " (reading '" ++ key ++ "')", none⟩

/-- The `TypeError` thrown by calling a property that is not a function. -/
def typeErrorCall (expr key : String) : JsError :=
  ⟨"TypeError", expr ++ "." ++ key ++ " is not a function", none⟩

namespace JsVal

/-- JavaScript truthiness (`ToBoolean`). -/
def truthy : JsVal → Bool
  | undefined => false
  | null => false
  | bool b => b
  | num q => decide (q ≠ 0)
  | str s => decide (s ≠ "")
  | arr _ => true
  | obj _ => true

/-- Own-property lookup in an object literal. -/
def lookupField : List (String × JsVal) → String → JsVal
  | [], _ => undefined
  | (k, v) :: rest, key => if k = key then v else lookupField rest key

/-- The property read `v.key`, for the keys this program reads (`output`,
`message`, `content`, `text`, `reply`, `model`, `error`): none of them is inherited by a
primitive or an array, so only objects can carry them, and reading a property
of `undefined` or `null` throws. -/
def getProp (v : JsVal) (key : String) : Except JsError JsVal :=
  match v with
  | undefined => .error (typeErrorRead "undefined" key)
  | null => .error (typeErrorRead "null" key)
  | obj fields => .ok (lookupField fields key)
  | _ => .ok undefined

end JsVal

/-! ## Strings -/

/-- ECMAScript `WhiteSpace` and `LineTerminator` code points, the ones
`String.prototype.trim` strips. -/
def isJsWhiteSpace (c : Char) : Bool :=
  let n := c.toNat
  n == 0x09 || n == 0x0A || n == 0x0B || n == 0x0C || n == 0x0D || n == 0x20 ||
  n == 0xA0 || n == 0x1680 || (0x2000 ≤ n && n ≤ 0x200A) || n == 0x2028 ||
  n == 0x2029 || n == 0x202F || n == 0x205F || n == 0x3000 || n == 0xFEFF

/-- Strip leading white space from a list of characters. -/
def trimStartChars (cs : List Char) : List Char := cs.dropWhile isJsWhiteSpace

/-- The method `String.prototype.trim`. -/
def jsTrim (s : String) : String :=
  ⟨(trimStartChars (trimStartChars s.data).reverse).reverse⟩

/-- The method `Array.prototype.join` on an array of strings. -/
def jsJoin (sep : String) (parts : List String) : String := sep.intercalate parts

/-- The method call `v.trim()` on a truthy value named `expr` in the source. -/
def callTrim (expr : String) (v : JsVal) : Except JsError String :=
  match v with
  | .str s => .ok (jsTrim s)
  | .undefined => .error (typeErrorRead "undefined" "trim")
  | .null => .error (typeErrorRead "null" "trim")
  | _ => .error (typeErrorCall expr "trim")

/-- The guard `!v || !v.trim()`: `true` when the value is rejected as blank. -/
def isBlank (expr : String) (v : JsVal) : Except JsError Bool :=
  if v.truthy then
    match callTrim expr v with
    | .ok t => .ok (decide (t = ""))
    | .error e => .error e
  else .ok true

/-! ## Configuration -/

/-- The environment variables read by the backend. -/
structure ProcessEnv where
  AWS_REGION : Option String
  BEDROCK_REGION : Option String
  BEDROCK_MODEL_ID : Option String
  NODE_ENV : Option String

/-- The expression `a || b` for an environment variable `a` (unset or empty is falsy). -/
def envOr (a : Option String) (b : String) : String :=
  match a with
  | some s => if s = "" then b else s
  | none => b

/-- Lines 6-9: `process.env.AWS_REGION || process.env.BEDROCK_REGION || 'us-east-1'`. -/
def region (env : ProcessEnv) : String :=
  envOr env.AWS_REGION (envOr env.BEDROCK_REGION "us-east-1")

/-- Lines 12-14: `process.env.BEDROCK_MODEL_ID || 'amazon.nova-pro-v1:0'`. -/
def modelId (env : ProcessEnv) : String :=
  envOr env.BEDROCK_MODEL_ID "amazon.nova-pro-v1:0"

/-! ## Model invocation adapter (`bedrockClient.js`) -/

/-- A content block `{ text }` of a Converse request. -/
structure TextBlock where
  text : String
deriving DecidableEq, Repr

/-- A message `{ role, content }` of a Converse request. -/
structure Message where
  role : String
  content : List TextBlock
deriving DecidableEq, Repr

/-- The `inferenceConfig` object of a Converse request. -/
structure InferenceConfig where
  maxTokens : JsVal
  temperature : JsVal
  topP : JsVal

/-- The `commandInput` object; `system = none` is an absent `system` field. -/
structure ConverseInput where
  modelId : String
  messages : List Message
  inferenceConfig : InferenceConfig
  system : Option (List TextBlock)

/-- The destructured argument of `sendTextMessageToNova`; a field that the
caller leaves out is `undefined`. -/
structure NovaParams where
  message : JsVal
  systemPrompt : JsVal
  maxTokens : JsVal
  temperature : JsVal
  topP : JsVal

/-- A destructuring default `x = d`: it applies only to `undefined`. -/
def withDefault (v d : JsVal) : JsVal :=
  match v with
  | .undefined => d
  | other => other

/-- A persisted chat record handed to `new Chat({...})`. -/
structure ChatRecord where
  userId : String
  message : String
  isUser : Bool
deriving DecidableEq, Repr

/-- Observable effects, in program order. -/
inductive Event where
  /-- Call of `encrypt(plain)`. -/
  | encrypt (plain : JsVal)
  /-- Call of `doc.save()`; `awaited` tells whether the handler awaits it. -/
  | save (rec : ChatRecord) (awaited : Bool)
  /-- Call of `sendTextMessageToNova(params)`. -/
  | nova (params : NovaParams)
  /-- Call of `bedrockClient.send(new ConverseCommand(input))`. -/
  | bedrockSend (input : ConverseInput)
  /-- A response transmitted to the caller by `res.status(code).json(body)`. -/
  | respond (status : Nat) (body : JsVal)
  /-- A `res.status(code).json(body)` invoked after a response was transmitted. -/
  | lateRespond (status : Nat) (body : JsVal)
  /-- Call of `console.error(label, err)`. -/
  | consoleError (label : String) (err : JsError)

/-- The collaborators of the backend. Each answers with a value or with the
error it throws (rejects with), and may depend on the effects so far. -/
structure World where
  env : ProcessEnv
  encrypt : List Event → JsVal → Except JsError String
  save : List Event → ChatRecord → Except JsError Unit
  send : List Event → ConverseInput → Except JsError JsVal

/-- Lines 36-64: validation of `message` and construction of `commandInput`. -/
def buildCommandInput (env : ProcessEnv) (p : NovaParams) : Except JsError ConverseInput :=
  match isBlank "message" p.message with
  | .error e => .error e
  | .ok true => .error (mkError "Bedrock: message is required")
  | .ok false =>
    match callTrim "message" p.message with
    | .error e => .error e
    | .ok userText =>
      let commandInput : ConverseInput :=
        { modelId := modelId env
          messages := [{ role := "user", content := [{ text := userText }] }]
          inferenceConfig :=
            { maxTokens := withDefault p.maxTokens (.num 512)
              temperature := withDefault p.temperature (.num (7 / 10))
              topP := withDefault p.topP (.num (9 / 10)) }
          system := none }
      if p.systemPrompt.truthy then
        match callTrim "systemPrompt" p.systemPrompt with
        | .error e => .error e
        | .ok sp =>
          if sp = "" then .ok commandInput
          else .ok { commandInput with system := some [{ text := sp }] }
      else .ok commandInput

/-- The filter predicate and the map of lines 76-78 on one block:
`some text` when `typeof block.text === 'string' && block.text.length > 0`. -/
def blockText (block : JsVal) : Except JsError (Option String) :=
  match block.getProp "text" with
  | .error e => .error e
  | .ok (.str s) => .ok (if s.length > 0 then some s else none)
  | .ok _ => .ok none

/-- Lines 76-78: `content.filter(...).map(block => block.text)`. -/
def textParts : List JsVal → Except JsError (List String)
  | [] => .ok []
  | block :: rest =>
    match blockText block with
    | .error e => .error e
    | .ok t =>
      match textParts rest with
      | .error e => .error e
      | .ok ts => .ok (match t with
        | some s => s :: ts
        | none => ts)

/-- The message of the error thrown at line 73. -/
def malformedMsg : String := "Bedrock: empty or malformed response from model"

/-- Lines 71-80: extraction of the reply text from the provider response. -/
def extractReply (response : JsVal) : Except JsError String :=
  match response.getProp "output" with
  | .error e => .error e
  | .ok output =>
    -- `response.output && response.output.message`
    match (if output.truthy then output.getProp "message" else .ok output) with
    | .error e => .error e
    | .ok outputMessage =>
      if outputMessage.truthy then
        match outputMessage.getProp "content" with
        | .error e => .error e
        | .ok (.arr content) =>
          match textParts content with
          | .error e => .error e
          | .ok parts => .ok (jsTrim (jsJoin "\n" parts))
        | .ok _ => .error (mkError malformedMsg)
      else .error (mkError malformedMsg)

/-- The function `sendTextMessageToNova`: returns the extended trace and
either the reply text or the thrown error. -/
def sendTextMessageToNova (w : World) (tr : List Event) (p : NovaParams) :
    List Event × Except JsError String :=
  match buildCommandInput w.env p with
  | .error e => (tr, .error e)
  | .ok commandInput =>
    let tr1 := tr ++ [Event.bedrockSend commandInput]
    let attempt : Except JsError String :=
      match w.send tr commandInput with
      | .error e => .error e
      | .ok response => extractReply response
    match attempt with
    | .ok text => (tr1, .ok text)
    | .error error =>
      (tr1 ++ [Event.consoleError "Bedrock API Error:" error],
        .error (mkError ("Bedrock API call failed: " ++ error.message)))

/-! ## Message relay handler (`chatController.js`) -/

/-- The settled state of one `sendMessage` request. -/
structure Run where
  /-- The effects, in program order. -/
  trace : List Event
  /-- Settlement of the promise returned by the `async` handler. -/
  outcome : Except JsError Unit
  /-- Settlement of the un-awaited `botMessage.save()`, once started. -/
  background : Option (Except JsError Unit)

/-- Whether a response has already been transmitted (`res.headersSent`). -/
def headersSent (tr : List Event) : Bool :=
  tr.any fun e =>
    match e with
    | .respond _ _ => true
    | _ => false

/-- The error Node throws when a header is set after the response was sent. -/
def errHeadersSent : JsError :=
  ⟨"Error", "Cannot set headers after they are sent to the client", none⟩

/-- The Express call `res.status(code).json(body)` (`res.json(body)` is the case
`code = 200`): it transmits the response, unless one was transmitted already,
in which case setting the headers throws and nothing reaches the caller. -/
def resJson (tr : List Event) (code : Nat) (body : JsVal) :
    List Event × Except JsError Unit :=
  if headersSent tr then (tr ++ [Event.lateRespond code body], .error errHeadersSent)
  else (tr ++ [Event.respond code body], .ok ())

/-- Lines 28-33: the persona and safety instructions. -/
def systemPrompt : String :=
  jsJoin " "
    [ "You are Mitra, a supportive mental health companion for young people in India.",
      "Respond in a warm, non-judgmental, and concise way.",
      "You are not a doctor or emergency service and you must not give medical, legal, or financial advice.",
      "Encourage users to seek help from qualified professionals, trusted adults, or local helplines (e.g., Tele-MANAS: 14416) when there is any risk of harm." ]

/-- Lines 57-59: the `error` field of the 500 body. -/
def errorMessage (env : ProcessEnv) (err : JsError) : String :=
  if env.NODE_ENV = some "development" then
    (if err.message = "" then "Server error" else err.message)
  else "Server error"

/-- Line 60: the body `{ error: errorMessage, details: err.message }`. -/
def errorBody (env : ProcessEnv) (err : JsError) : JsVal :=
  .obj [("error", .str (errorMessage env err)), ("details", .str err.message)]

/-- Lines 54-61: the `catch` block. -/
def catchBlock (w : World) (tr : List Event) (err : JsError) : Run :=
  let tr1 := tr ++ [Event.consoleError "Chat sendMessage error:" err]
  match resJson tr1 500 (errorBody w.env err) with
  | (tr2, outcome) => ⟨tr2, outcome, none⟩

/-- The arguments of the adapter call of lines 35-41. -/
def novaParams (message : JsVal) : NovaParams :=
  { message := message
    systemPrompt := .str systemPrompt
    maxTokens := .num 512
    temperature := .num (7 / 10)
    topP := .num (9 / 10) }

/-- The body `{ reply, model }` of line 44. -/
def replyBody (env : ProcessEnv) (botResponse : String) : JsVal :=
  .obj [("reply", .str botResponse), ("model", .str (modelId env))]

/-- Lines 18-53: the `try` block, entered with the effects `tr0` so far. -/
def tryBlock (w : World) (userId : String) (message : JsVal) (tr0 : List Event) : Run :=
  -- 1. Store user message
  let tr1 := tr0 ++ [Event.encrypt message]
  match w.encrypt tr0 message with
  | .error err => catchBlock w tr1 err
  | .ok cipher =>
    let userMessage : ChatRecord := { userId := userId, message := cipher, isUser := true }
    let tr2 := tr1 ++ [Event.save userMessage true]
    match w.save tr1 userMessage with
    | .error err => catchBlock w tr2 err
    | .ok _ =>
      -- 2. Forward to Amazon Nova
      match sendTextMessageToNova w (tr2 ++ [Event.nova (novaParams message)])
          (novaParams message) with
      | (tr3, .error err) => catchBlock w tr3 err
      | (tr3, .ok botResponse) =>
        match resJson tr3 200 (replyBody w.env botResponse) with
        | (tr4, .error err) => catchBlock w tr4 err
        | (tr4, .ok _) =>
          -- 3. Store bot response in the background
          let tr5 := tr4 ++ [Event.encrypt (.str botResponse)]
          match w.encrypt tr4 (.str botResponse) with
          | .error err => catchBlock w tr5 err
          | .ok cipher2 =>
            let botMessage : ChatRecord :=
              { userId := userId, message := cipher2, isUser := false }
            { trace := tr5 ++ [Event.save botMessage false]
              outcome := .ok ()
              background := some (w.save tr5 botMessage) }

/-- The handler `exports.sendMessage`, for an authenticated caller
(`req.user.id = userId`) and `req.body.message = message`. -/
def sendMessage (w : World) (userId : String) (message : JsVal) : Run :=
  match isBlank "message" message with
  | .error err => { trace := [], outcome := .error err, background := none }
  | .ok true =>
    match resJson [] 400 (.obj [("msg", .str "Message is required")]) with
    | (tr, outcome) => { trace := tr, outcome := outcome, background := none }
  | .ok false => tryBlock w userId message []

/-! ### Observations on a trace -/

/-- The records handed to the store, in order, with the `awaited` flag. -/
def storeWrites (tr : List Event) : List (ChatRecord × Bool) :=
  tr.filterMap fun e =>
    match e with
    | .save rec awaited => some (rec, awaited)
    | _ => none

/-- The adapter invocations, in order. -/
def novaCalls (tr : List Event) : List NovaParams :=
  tr.filterMap fun e =>
    match e with
    | .nova p => some p
    | _ => none

/-- The provider requests, in order. -/
def bedrockCalls (tr : List Event) : List ConverseInput :=
  tr.filterMap fun e =>
    match e with
    | .bedrockSend c => some c
    | _ => none

/-- The responses transmitted to the caller, in order. -/
def responses (tr : List Event) : List (Nat × JsVal) :=
  tr.filterMap fun e =>
    match e with
    | .respond code body => some (code, body)
    | _ => none

/-! ### Specification-side vocabulary -/

/-- The provider response carries an output message whose content is the
sequence `blocks`. -/
def HasContent (response : JsVal) (blocks : List JsVal) : Prop :=
  ∃ output outputMessage,
    response.getProp "output" = .ok output ∧
    output.getProp "message" = .ok outputMessage ∧
    outputMessage.getProp "content" = .ok (.arr blocks)

/-- A content element is a block when a property can be read from it. -/
def IsBlock (b : JsVal) : Prop := b ≠ .undefined ∧ b ≠ .null

/-- The non-empty string `text` field of a block, if it has one. -/
def nonEmptyText (b : JsVal) : Option String :=
  match b with
  | .obj fields =>
    match JsVal.lookupField fields "text" with
    | .str s => if s = "" then none else some s
    | _ => none
  | _ => none

/-- The non-empty text fields of the blocks, in provider order. -/
def nonEmptyTexts (blocks : List JsVal) : List String := blocks.filterMap nonEmptyText

/-- The system prompt as the caller passes it: left out, or a string. -/
def optPrompt (sp : Option String) : JsVal :=
  match sp with
  | some s => .str s
  | none => .undefined

/-- The `system` field the specification asks for. -/
def expectedSystem (sp : Option String) : Option (List TextBlock) :=
  match sp with
  | some s => if jsTrim s = "" then none else some [{ text := jsTrim s }]
  | none => none

/-- The request the handler makes the adapter build, for a non-blank text. -/
def relayCommand (env : ProcessEnv) (text : String) : ConverseInput :=
  { modelId := modelId env
    messages := [{ role := "user", content := [{ text := jsTrim text }] }]
    inferenceConfig :=
      { maxTokens := .num 512, temperature := .num (7 / 10), topP := .num (9 / 10) }
    system := expectedSystem (some systemPrompt) }

/-- The user-authored record of step 1. -/
def userRecord (userId cipher : String) : ChatRecord :=
  { userId := userId, message := cipher, isUser := true }

/-- The bot-authored record of step 4. -/
def botRecord (userId cipher : String) : ChatRecord :=
  { userId := userId, message := cipher, isUser := false }

/-- The effects of a request up to and including the adapter call. -/
def relayPrefix (env : ProcessEnv) (userId text cipher : String) : List Event :=
  [Event.encrypt (.str text), Event.save (userRecord userId cipher) true,
    Event.nova (novaParams (.str text)), Event.bedrockSend (relayCommand env text)]

/-! ## Example worlds -/

/-- An environment with no variable set. -/
def plainEnv : ProcessEnv := ⟨none, none, none, none⟩

/-- A provider response wrapping `content`. -/
def responseWith (content : JsVal) : JsVal :=
  .obj [("output", .obj [("message", .obj [("role", .str "assistant"), ("content", content)])])]

/-- A world whose collaborators all succeed; the provider answers `response`. -/
def calmWorld (env : ProcessEnv) (response : JsVal) : World :=
  { env := env
    encrypt := fun _ _ => .ok "ciphertext"
    save := fun _ _ => .ok ()
    send := fun _ _ => .ok response }

/-- Adapter arguments carrying only a message. -/
def bareParams (text : String) : NovaParams :=
  ⟨.str text, .undefined, .undefined, .undefined, .undefined⟩

/-- The blocks of the example `["Hello", "", "there"]`. -/
def helloBlocks : List JsVal :=
  [.obj [("text", .str "Hello")], .obj [("text", .str "")], .obj [("text", .str "there")]]

/-- A world whose store rejects every write with `db down`. -/
def failingStoreWorld (env : ProcessEnv) : World :=
  { env := env
    encrypt := fun _ _ => .ok "ciphertext"
    save := fun _ _ => .error (mkError "db down")
    send := fun _ _ => .ok (responseWith (.arr helloBlocks)) }

/-- A world in which step 4 fails: the utility encrypts the user message but
throws on the reply, and the store rejects bot-authored records. -/
def failingStep4World (env : ProcessEnv) : World :=
  { env := env
    encrypt := fun tr _ => if tr.isEmpty then .ok "ciphertext" else .error (mkError "cipher failure")
    save := fun _ rec => if rec.isUser then .ok () else .error (mkError "db down")
    send := fun _ _ => .ok (responseWith (.arr helloBlocks)) }

/-- A world in which only the background write fails: the store accepts the user
record and rejects the bot record. -/
def failingBotStoreWorld (env : ProcessEnv) : World :=
  { env := env
    encrypt := fun _ _ => .ok "ciphertext"
    save := fun _ rec => if rec.isUser then .ok () else .error (mkError "db down")
    send := fun _ _ => .ok (responseWith (.arr helloBlocks)) }

/-- An environment whose only variable is `NODE_ENV`. -/
def modeEnv (mode : String) : ProcessEnv := ⟨none, none, none, some mode⟩

/-! ## Token cache (`backendAuth.js`) -/

/-- The storage key of the cached token. -/
def TOKEN_STORAGE_KEY : String := "mitrasetu_backend_token"

/-- The storage key of the cached expiry. -/
def TOKEN_EXPIRY_KEY : String := "mitrasetu_backend_token_expiry"

/-- The content of `localStorage`: keys with their string values. -/
abbrev Storage := List (String × String)

/-- The call `localStorage.getItem(key)`; `none` is `null`. -/
def getItem : Storage → String → Option String
  | [], _ => none
  | (k, v) :: rest, key => if k = key then some v else getItem rest key

/-- The call `localStorage.setItem(key, value)`. -/
def setItem : Storage → String → String → Storage
  | [], key, value => [(key, value)]
  | (k, v) :: rest, key, value =>
    if k = key then (key, value) :: rest else (k, v) :: setItem rest key value

/-- A decimal digit `0`..`9`. -/
def isDecimalDigit (c : Char) : Bool := 48 ≤ c.toNat && c.toNat ≤ 57

/-- The value of a string of decimal digits. -/
def digitsValue (cs : List Char) : Nat :=
  cs.foldl (fun acc c => 10 * acc + (c.toNat - 48)) 0

/-- The call `parseInt(s, 10)`: leading white space is skipped, one sign is accepted, the
longest prefix of decimal digits is read; `none` is `NaN`. The value is exact
(the rounding of integers beyond `2^53` is not modelled). -/
def parseInt10 (s : String) : Option Int :=
  let body := trimStartChars s.data
  let negative : Bool :=
    match body with
    | c :: _ => c.toNat == 45
    | [] => false
  let unsigned : List Char :=
    match body with
    | c :: rest => if c.toNat == 45 || c.toNat == 43 then rest else body
    | [] => []
  let digits := unsigned.takeWhile isDecimalDigit
  if digits.isEmpty then none
  else some (if negative then -(digitsValue digits : Int) else (digitsValue digits : Int))

/-- The condition `Date.now() < parseInt(expiry, 10)`; false on `NaN`. -/
def nowBefore (now : Nat) (expiry : String) : Bool :=
  match parseInt10 expiry with
  | some t => decide ((now : Int) < t)
  | none => false

/-- The response of `POST /auth/guest`, as far as the client reads it. -/
structure FetchResponse where
  /-- The HTTP status code. -/
  status : Nat
  /-- Settlement of `await response.json()` followed by the read `data.token`: an
  error when the body is not JSON (or is `null`), `none` when the body carries no
  token, else the token, which the endpoint issues as a string. -/
  token : Except JsError (Option String)

/-- The property `response.ok`: the status is in the range 200-299. -/
def FetchResponse.ok (r : FetchResponse) : Bool := 200 ≤ r.status && r.status ≤ 299

/-- The collaborators of the token cache. -/
structure AuthWorld where
  /-- The constant `API_BASE` of `../config`. -/
  apiBase : String
  /-- The value of `Date.now()` in the freshness test. -/
  nowAtCheck : Nat
  /-- The value of `Date.now()` when the expiry is stored. -/
  nowAtStore : Nat
  /-- Settlement of the `fetch` call: a response, or a network error. -/
  fetch : Except JsError FetchResponse

/-- The settled state of one `getBackendToken` call. -/
structure AuthRun where
  /-- The content of `localStorage` afterwards. -/
  storage : Storage
  /-- The network calls made, as method and URL. -/
  requests : List (String × String)
  /-- The errors passed to `console.error`. -/
  logged : List JsError
  /-- The returned token, or the thrown error. -/
  result : Except JsError String

/-- Lines 15-18: the cached token, when `cachedToken && expiry &&
Date.now() < parseInt(expiry, 10)` holds. -/
def cachedValid (st : Storage) (now : Nat) : Option String :=
  match getItem st TOKEN_STORAGE_KEY, getItem st TOKEN_EXPIRY_KEY with
  | some cachedToken, some expiry =>
    if cachedToken ≠ "" ∧ expiry ≠ "" ∧ nowBefore now expiry = true then some cachedToken
    else none
  | _, _ => none

/-- Lines 24-40: the request and the checks made on its response. -/
def fetchToken (w : AuthWorld) : Except JsError String :=
  match w.fetch with
  | .error e => .error e
  | .ok response =>
    if response.ok then
      match response.token with
      | .error e => .error e
      | .ok none => .error (mkError "No token in backend response")
      | .ok (some token) =>
        if token = "" then .error (mkError "No token in backend response") else .ok token
    else .error (mkError ("Failed to get backend token: " ++ Nat.repr response.status))

/-- The function `getBackendToken`. -/
def getBackendToken (w : AuthWorld) (st : Storage) : AuthRun :=
  match cachedValid st w.nowAtCheck with
  | some cachedToken => { storage := st, requests := [], logged := [], result := .ok cachedToken }
  | none =>
    let requests := [("POST", w.apiBase ++ "/auth/guest")]
    match fetchToken w with
    | .ok token =>
      { storage := setItem (setItem st TOKEN_STORAGE_KEY token) TOKEN_EXPIRY_KEY
          (Nat.repr (w.nowAtStore + 50 * 60 * 1000))
        requests := requests
        logged := []
        result := .ok token }
    | .error error =>
      { storage := st, requests := requests, logged := [error], result := .error error }

/-! ### Example storage and endpoints -/

/-- A storage holding the token `jwt-1` with expiry `1700000000000`. -/
def cachedStorage : Storage :=
  [("theme", "dark"), (TOKEN_STORAGE_KEY, "jwt-1"), (TOKEN_EXPIRY_KEY, "1700000000000")]

/-- An endpoint answering `200 { token: 'jwt-2' }`. -/
def issuingWorld (nowAtCheck nowAtStore : Nat) : AuthWorld :=
  { apiBase := "http://localhost:5000"
    nowAtCheck := nowAtCheck
    nowAtStore := nowAtStore
    fetch := .ok ⟨200, .ok (some "jwt-2")⟩ }

/-- An endpoint answering `200 {}`: a successful status without a token. -/
def tokenlessWorld (nowAtCheck : Nat) : AuthWorld :=
  { apiBase := "http://localhost:5000"
    nowAtCheck := nowAtCheck
    nowAtStore := nowAtCheck
    fetch := .ok ⟨200, .ok none⟩ }

/-! ## Chat UI (`AIAssistant.jsx`, `sendMessage`) -/

/-- A message object handed to `addMessage`; `model = none` is an object without
a `model` property. -/
structure UiMessage where
  role : String
  text : JsVal
  timestamp : String
  model : Option JsVal

/-- Modelled from the spec: `addMessage` of `ConversationContext`, which is not
part of the sources, appends the message to the transcript the UI renders. -/
def addMessage (messages : List UiMessage) (m : UiMessage) : List UiMessage :=
  messages ++ [m]

/-- The response of `POST /api/chat`, as far as the UI reads it. -/
structure ChatResponse where
  /-- The HTTP status code. -/
  status : Nat
  /-- Settlement of `response.json()`: the parsed body, or the rejection. -/
  json : Except JsError JsVal

/-- The property `response.ok`: the status is in the range 200-299. -/
def ChatResponse.ok (r : ChatResponse) : Bool := 200 ≤ r.status && r.status ≤ 299

/-- A `fetch` call of the UI: method, URL, headers and JSON body. -/
structure UiRequest where
  method : String
  url : String
  headers : List (String × String)
  body : Option JsVal

/-- The value thrown inside the `try` block of the UI. -/
inductive ChatFailure where
  /-- An error thrown by a collaborator or by the runtime. -/
  | thrown (e : JsError)
  /-- Line 100: `new Error(errorData.error || 'HTTP ' + response.status)`, kept as
  the status and the `error` field it is built from. -/
  | http (status : Nat) (errorField : JsVal)
  /-- Line 116: `new Error("No valid AI response")`. -/
  | noReply

/-- The console output of the UI. -/
inductive UiLog where
  /-- Line 48 of `backendAuth.js`: `console.error('Error fetching backend token:', error)`. -/
  | tokenError (e : JsError)
  /-- Line 104: `console.log("Amazon Nova Pro response:", data)`. -/
  | response (data : JsVal)
  /-- Line 119: `console.error('Chat error:', error)`. -/
  | chatError (f : ChatFailure)

/-- The collaborators of the chat UI. -/
structure UiWorld where
  /-- The collaborators of `getBackendToken`, `API_BASE` included. -/
  auth : AuthWorld
  /-- Settlement of the `fetch` of `/api/chat`: a response, or a network error. -/
  chat : Except JsError ChatResponse
  /-- The value of `new Date().toLocaleTimeString()` at line 77. -/
  timeAtSend : String
  /-- The value of `new Date().toLocaleTimeString()` at line 111 or 123. -/
  timeAtReply : String

/-- The state the UI handler reads and writes. -/
structure UiState where
  /-- The transcript held by the conversation context. -/
  messages : List UiMessage
  inputText : String
  isLoading : Bool
  /-- The content of `localStorage`. -/
  storage : Storage

/-- The settled state of one call of the UI handler. -/
structure UiRun where
  state : UiState
  /-- The network calls made, in order. -/
  requests : List UiRequest
  /-- The console output, in order. -/
  logs : List UiLog

/-- The static text of line 122. -/
def fallbackText : String :=
  "I'm sorry, I'm having trouble connecting right now. Please know that your feelings are valid and you're not alone."

/-- The outcome of the `try` block of the UI: the storage, the requests and the
console output, and either the assistant message to add or the value thrown. -/
structure ChatAttempt where
  storage : Storage
  requests : List UiRequest
  logs : List UiLog
  result : Except ChatFailure UiMessage

/-- Lines 82-117: the `try` block of the UI handler. -/
def chatAttempt (w : UiWorld) (inputText : String) (storage : Storage) : ChatAttempt :=
  -- Get backend JWT token (guest login)
  let tokenRun := getBackendToken w.auth storage
  let authRequests : List UiRequest := tokenRun.requests.map fun r =>
    { method := r.1, url := r.2, headers := [("Content-Type", "application/json")], body := none }
  let authLogs := tokenRun.logged.map UiLog.tokenError
  match tokenRun.result with
  | .error e => ⟨tokenRun.storage, authRequests, authLogs, .error (.thrown e)⟩
  | .ok token =>
    -- Call backend /api/chat endpoint
    let requests := authRequests ++
      [{ method := "POST"
         url := w.auth.apiBase ++ "/api/chat"
         headers := [("Content-Type", "application/json"), ("x-auth-token", token)]
         body := some (.obj [("message", .str inputText)]) }]
    match w.chat with
    | .error e => ⟨tokenRun.storage, requests, authLogs, .error (.thrown e)⟩
    | .ok response =>
      if response.ok then
        match response.json with
        | .error e => ⟨tokenRun.storage, requests, authLogs, .error (.thrown e)⟩
        | .ok data =>
          let logs := authLogs ++ [UiLog.response data]
          -- Extract the reply from the backend response
          match data.getProp "reply" with
          | .error e => ⟨tokenRun.storage, requests, logs, .error (.thrown e)⟩
          | .ok reply =>
            if reply.truthy then
              match data.getProp "model" with
              | .error e => ⟨tokenRun.storage, requests, logs, .error (.thrown e)⟩
              | .ok m =>
                ⟨tokenRun.storage, requests, logs,
                  .ok { role := "ai"
                        text := reply
                        timestamp := w.timeAtReply
                        model := some (if m.truthy then m else .str "amazon.nova-pro-v1:0") }⟩
            else ⟨tokenRun.storage, requests, logs, .error .noReply⟩
      else
        -- `await response.json().catch(() => ({ error: 'Unknown error' }))`
        let errorData : JsVal :=
          match response.json with
          | .ok d => d
          | .error _ => .obj [("error", .str "Unknown error")]
        match errorData.getProp "error" with
        | .error e => ⟨tokenRun.storage, requests, authLogs, .error (.thrown e)⟩
        | .ok errorField =>
          ⟨tokenRun.storage, requests, authLogs, .error (.http response.status errorField)⟩

/-- The handler `sendMessage` of the component `AIAssistant` (lines 74-129). -/
def AIAssistant.sendMessage (w : UiWorld) (st : UiState) : UiRun :=
  if jsTrim st.inputText = "" then { state := st, requests := [], logs := [] }
  else
    let userMessage : UiMessage :=
      { role := "user", text := .str st.inputText, timestamp := w.timeAtSend, model := none }
    let messages1 := addMessage st.messages userMessage
    -- `setInputText("")`, `setIsLoading(true)`, then the `try` block
    match chatAttempt w st.inputText st.storage with
    | ⟨storage, requests, logs, .ok aiMessage⟩ =>
      { state :=
          { messages := addMessage messages1 aiMessage
            inputText := ""
            isLoading := false
            storage := storage }
        requests := requests
        logs := logs }
    | ⟨storage, requests, logs, .error error⟩ =>
      let errorMessage : UiMessage :=
        { role := "ai", text := .str fallbackText, timestamp := w.timeAtReply, model := none }
      { state :=
          { messages := addMessage messages1 errorMessage
            inputText := ""
            isLoading := false
            storage := storage }
        requests := requests
        logs := logs ++ [UiLog.chatError error] }

/-- The response-sending calls the relay handler invoked, transmitted or not. -/
def responseCalls (tr : List Event) : List (Nat × JsVal) :=
  tr.filterMap fun e =>
    match e with
    | .respond code body => some (code, body)
    | .lateRespond code body => some (code, body)
    | _ => none

/-- A chat backend answering `status` with the JSON `body`, behind an auth
endpoint that issues `jwt-2`. -/
def uiWorld (status : Nat) (body : JsVal) : UiWorld :=
  { auth := issuingWorld 1700000000000 1700000000005
    chat := .ok ⟨status, .ok body⟩
    timeAtSend := "10:00:00"
    timeAtReply := "10:00:02" }

/-- A UI state with an empty transcript and the given input. -/
def uiState (inputText : String) : UiState :=
  { messages := [], inputText := inputText, isLoading := false, storage := [] }

/-- The backend call succeeded and carries the non-empty reply `reply`: a token was
obtained, the response has a successful status and its JSON body has a truthy
`reply`. -/
def RepliesWith (w : UiWorld) (storage : Storage) (reply : JsVal) : Prop :=
  ∃ token response data,
    (getBackendToken w.auth storage).result = .ok token ∧ w.chat = .ok response ∧
    response.ok = true ∧ response.json = .ok data ∧
    data.getProp "reply" = .ok reply ∧ reply.truthy = true

/-- The other outcomes: token failure, network error, non-OK status, unreadable
body, or a body whose `reply` is missing or empty. -/
def ChatFails (w : UiWorld) (storage : Storage) : Prop :=
  (∃ e, (getBackendToken w.auth storage).result = .error e) ∨
  (∃ e, w.chat = .error e) ∨
  (∃ response, w.chat = .ok response ∧ response.ok = false) ∨
  (∃ response e, w.chat = .ok response ∧ response.json = .error e) ∨
  (∃ response data, w.chat = .ok response ∧ response.json = .ok data ∧
    ∀ reply, data.getProp "reply" = .ok reply → reply.truthy = false)

/-! # Theorems -/

/-! ## Lemmas on the adapter -/

theorem string_length_pos_iff (s : String) : s.length > 0 ↔ s ≠ "" := by
  rcases s with ⟨cs⟩
  cases cs with
  | nil => simp [String.length]
  | cons c cs =>
    simp only [String.length, List.length_cons, gt_iff_lt, Nat.zero_lt_succ, true_iff]
    intro h
    have := congrArg String.data h
    simp at this

theorem blockText_eq (b : JsVal) (hb : IsBlock b) : blockText b = .ok (nonEmptyText b) := by
  obtain ⟨h1, h2⟩ := hb
  cases b with
  | undefined => exact absurd rfl h1
  | null => exact absurd rfl h2
  | bool _ => rfl
  | num _ => rfl
  | str _ => rfl
  | arr _ => rfl
  | obj fields =>
    simp only [blockText, JsVal.getProp, nonEmptyText]
    cases hl : JsVal.lookupField fields "text" with
    | str s =>
      by_cases hs : s = ""
      · subst hs; rfl
      · have : s.length > 0 := (string_length_pos_iff s).2 hs
        simp [hs, this]
    | _ => rfl

theorem textParts_eq (blocks : List JsVal) (h : ∀ b ∈ blocks, IsBlock b) :
    textParts blocks = .ok (nonEmptyTexts blocks) := by
  induction blocks with
  | nil => rfl
  | cons b rest ih =>
    have hb : IsBlock b := h b (List.mem_cons_self _ _)
    have hrest : ∀ x ∈ rest, IsBlock x := fun x hx => h x (List.mem_cons_of_mem _ hx)
    simp only [textParts, blockText_eq b hb, ih hrest, nonEmptyTexts, List.filterMap_cons]
    cases nonEmptyText b <;> rfl

theorem extractReply_of_hasContent (response : JsVal) (blocks : List JsVal)
    (h : HasContent response blocks) :
    extractReply response =
      match textParts blocks with
      | .error e => .error e
      | .ok parts => .ok (jsTrim (jsJoin "\n" parts)) := by
  obtain ⟨output, outputMessage, h1, h2, h3⟩ := h
  have hm : outputMessage.truthy = true := by
    cases outputMessage <;> first | rfl | simp [JsVal.getProp] at h3
  have ho : output.truthy = true := by
    cases output <;> first
      | rfl
      | (simp only [JsVal.getProp, Except.ok.injEq] at h2; subst h2; simp [JsVal.truthy] at hm)
      | simp [JsVal.getProp] at h2
  simp only [extractReply, h1, ho, if_true, h2, hm, h3]

theorem extractReply_malformed (response : JsVal)
    (hu : response ≠ .undefined) (hn : response ≠ .null)
    (h : ∀ blocks, ¬ HasContent response blocks) :
    extractReply response = .error (mkError malformedMsg) := by
  obtain ⟨output, h1⟩ : ∃ output, response.getProp "output" = .ok output := by
    cases response <;> first | exact absurd rfl hu | exact absurd rfl hn | exact ⟨_, rfl⟩
  simp only [extractReply, h1]
  by_cases ho : output.truthy = true
  · obtain ⟨outputMessage, h2⟩ : ∃ m, output.getProp "message" = .ok m := by
      cases output <;> simp_all [JsVal.getProp, JsVal.truthy]
    simp only [ho, if_true, h2]
    by_cases hm : outputMessage.truthy = true
    · obtain ⟨content, h3⟩ : ∃ c, outputMessage.getProp "content" = .ok c := by
        cases outputMessage <;> simp_all [JsVal.getProp, JsVal.truthy]
      simp only [hm, if_true, h3]
      cases content with
      | arr blocks => exact absurd ⟨output, outputMessage, h1, h2, h3⟩ (h blocks)
      | _ => rfl
    · simp [hm]
  · simp [ho]

theorem sendTextMessageToNova_of_response (w : World) (tr : List Event) (p : NovaParams)
    (cmd : ConverseInput) (response : JsVal)
    (hcmd : buildCommandInput w.env p = .ok cmd) (hsend : w.send tr cmd = .ok response) :
    sendTextMessageToNova w tr p =
      match extractReply response with
      | .ok text => (tr ++ [Event.bedrockSend cmd], .ok text)
      | .error error =>
        (tr ++ [Event.bedrockSend cmd] ++ [Event.consoleError "Bedrock API Error:" error],
          .error (mkError ("Bedrock API call failed: " ++ error.message))) := by
  simp only [sendTextMessageToNova, hcmd, hsend]

theorem nonEmptyText_of_getProp (b : JsVal) (s : String) (hs : s ≠ "")
    (h : b.getProp "text" = .ok (.str s)) : nonEmptyText b = some s := by
  cases b <;> simp [JsVal.getProp] at h
  simp [nonEmptyText, h, hs]

/-! ## Claims on the adapter -/

/-- C1: when the provider response has an output message whose content is a
sequence of blocks with at least one non-empty text field, `sendTextMessageToNova`
returns exactly the trimmed, newline-joined concatenation of the non-empty text
fields, in provider order; the other blocks are dropped. -/
theorem sendTextMessageToNova_returns_joined_text
    (w : World) (tr : List Event) (p : NovaParams) (cmd : ConverseInput)
    (response : JsVal) (blocks : List JsVal)
    (hcmd : buildCommandInput w.env p = .ok cmd)
    (hsend : w.send tr cmd = .ok response)
    (hcontent : HasContent response blocks)
    (hblocks : ∀ b ∈ blocks, IsBlock b)
    (hsome : ∃ b ∈ blocks, ∃ s, s ≠ "" ∧ b.getProp "text" = .ok (.str s)) :
    (sendTextMessageToNova w tr p).2 = .ok (jsTrim (jsJoin "\n" (nonEmptyTexts blocks)))
      ∧ nonEmptyTexts blocks ≠ [] := by
  constructor
  · rw [sendTextMessageToNova_of_response w tr p cmd response hcmd hsend,
      extractReply_of_hasContent response blocks hcontent, textParts_eq blocks hblocks]
  · obtain ⟨b, hb, s, hs, hget⟩ := hsome
    intro hnil
    have hmem : s ∈ nonEmptyTexts blocks :=
      List.mem_filterMap.2 ⟨b, hb, nonEmptyText_of_getProp b s hs hget⟩
    rw [hnil] at hmem
    exact List.not_mem_nil _ hmem

/-- Witness of C1: the blocks `["Hello", "", "there"]` yield `"Hello\nthere"`. -/
theorem sendTextMessageToNova_returns_joined_text_witness :
    (sendTextMessageToNova (calmWorld plainEnv (responseWith (.arr helloBlocks))) []
      (bareParams "Hi")).2 = .ok "Hello\nthere" :=
  (sendTextMessageToNova_returns_joined_text
    (calmWorld plainEnv (responseWith (.arr helloBlocks))) [] (bareParams "Hi") _
    (responseWith (.arr helloBlocks)) helloBlocks rfl rfl ⟨_, _, rfl, rfl, rfl⟩
    (by
      intro b hb
      simp only [helloBlocks, List.mem_cons, List.mem_singleton, List.not_mem_nil,
        or_false] at hb
      rcases hb with rfl | rfl | rfl <;> exact ⟨by simp, by simp⟩)
    ⟨_, List.mem_cons_self _ _, "Hello", by decide, rfl⟩).1

/-- Counterexample to C2 as stated: a response whose content is the empty
sequence has zero valid blocks, yet the adapter returns the empty string. -/
theorem sendTextMessageToNova_empty_content_returns_empty :
    HasContent (responseWith (.arr [])) [] ∧ nonEmptyTexts [] = [] ∧
      (sendTextMessageToNova (calmWorld plainEnv (responseWith (.arr []))) []
        (bareParams "Hi")).2 = .ok "" :=
  ⟨⟨_, _, rfl, rfl, rfl⟩, rfl, rfl⟩

/-- C2, amended: a response that has no output message, or whose content is not
a sequence, makes `sendTextMessageToNova` fail and return no text; the error is
the one every failure of the call is wrapped into (`Bedrock API call failed: `
followed by the cause), the cause being the malformed-response message when the
response is an object. A response whose content is a sequence of blocks none of
which has a non-empty text is not a failure: the adapter returns the empty
string. -/
theorem sendTextMessageToNova_malformed_or_empty
    (w : World) (tr : List Event) (p : NovaParams) (cmd : ConverseInput) (response : JsVal)
    (hcmd : buildCommandInput w.env p = .ok cmd)
    (hsend : w.send tr cmd = .ok response) :
    ((∀ blocks, ¬ HasContent response blocks) →
      ∃ cause, (sendTextMessageToNova w tr p).2 =
          .error (mkError ("Bedrock API call failed: " ++ cause)) ∧
        (response ≠ .undefined → response ≠ .null → cause = malformedMsg)) ∧
    (∀ blocks, HasContent response blocks → (∀ b ∈ blocks, IsBlock b) →
      nonEmptyTexts blocks = [] → (sendTextMessageToNova w tr p).2 = .ok "") := by
  constructor
  · intro hno
    rw [sendTextMessageToNova_of_response w tr p cmd response hcmd hsend]
    by_cases hu : response = .undefined
    · subst hu
      exact ⟨_, rfl, fun h => absurd rfl h⟩
    · by_cases hn : response = .null
      · subst hn
        exact ⟨_, rfl, fun _ h => absurd rfl h⟩
      · rw [extractReply_malformed response hu hn hno]
        exact ⟨malformedMsg, rfl, fun _ _ => rfl⟩
  · intro blocks hcontent hblocks hnone
    rw [sendTextMessageToNova_of_response w tr p cmd response hcmd hsend,
      extractReply_of_hasContent response blocks hcontent, textParts_eq blocks hblocks, hnone]
    rfl

/-- Witness of the amended C2: a response object without `output`. -/
theorem sendTextMessageToNova_malformed_or_empty_witness :
    (sendTextMessageToNova (calmWorld plainEnv (.obj [])) [] (bareParams "Hi")).2 =
      .error (mkError "Bedrock API call failed: Bedrock: empty or malformed response from model") := by
  obtain ⟨cause, h, hc⟩ :=
    (sendTextMessageToNova_malformed_or_empty (calmWorld plainEnv (.obj [])) []
      (bareParams "Hi") _ (.obj []) rfl rfl).1
      (by
        rintro blocks ⟨o, m, h1, h2, _⟩
        simp only [JsVal.getProp, JsVal.lookupField, Except.ok.injEq] at h1
        subst h1
        simp [JsVal.getProp] at h2)
  rw [h, hc (by simp) (by simp)]
  rfl

theorem isBlank_str (expr text : String) (h : jsTrim text ≠ "") :
    isBlank expr (.str text) = .ok false := by
  have hne : text ≠ "" := by
    intro h0
    apply h
    rw [h0]
    rfl
  simp [isBlank, JsVal.truthy, callTrim, hne, h]

theorem buildCommandInput_ok (env : ProcessEnv) (text : String) (sp : Option String)
    (maxTokens temperature topP : JsVal) (h : jsTrim text ≠ "") :
    buildCommandInput env ⟨.str text, optPrompt sp, maxTokens, temperature, topP⟩ =
      .ok { modelId := modelId env
            messages := [{ role := "user", content := [{ text := jsTrim text }] }]
            inferenceConfig :=
              { maxTokens := withDefault maxTokens (.num 512)
                temperature := withDefault temperature (.num (7 / 10))
                topP := withDefault topP (.num (9 / 10)) }
            system := expectedSystem sp } := by
  cases sp with
  | none =>
    simp [buildCommandInput, isBlank_str _ text h, callTrim, optPrompt, JsVal.truthy,
      expectedSystem]
  | some s =>
    by_cases hs : jsTrim s = ""
    · by_cases hs0 : s = ""
      · subst hs0
        simp [buildCommandInput, isBlank_str _ text h, callTrim, optPrompt, JsVal.truthy,
          expectedSystem, hs]
      · simp [buildCommandInput, isBlank_str _ text h, callTrim, optPrompt, JsVal.truthy,
          expectedSystem, hs0, hs]
    · have hs0 : s ≠ "" := by
        intro h0
        apply hs
        rw [h0]
        rfl
      simp [buildCommandInput, isBlank_str _ text h, callTrim, optPrompt, JsVal.truthy,
        expectedSystem, hs0, hs]

theorem sendTextMessageToNova_trace (w : World) (tr : List Event) (p : NovaParams)
    (cmd : ConverseInput) (hcmd : buildCommandInput w.env p = .ok cmd) :
    (sendTextMessageToNova w tr p).1 = tr ++ [Event.bedrockSend cmd] ∨
    ∃ e, (sendTextMessageToNova w tr p).1 =
      tr ++ [Event.bedrockSend cmd, Event.consoleError "Bedrock API Error:" e] := by
  simp only [sendTextMessageToNova, hcmd]
  cases hs : w.send tr cmd with
  | error e => exact Or.inr ⟨e, by simp⟩
  | ok response =>
    cases hr : extractReply response with
    | error e => exact Or.inr ⟨e, by simp [hr]⟩
    | ok t => exact Or.inl (by simp [hr])

theorem withDefault_spec (v d : JsVal) :
    (v ≠ .undefined → withDefault v d = v) ∧ (v = .undefined → withDefault v d = d) := by
  cases v <;> simp [withDefault]

/-- C8: for a user text that is non-empty after trimming, the request built by
`sendTextMessageToNova` has exactly one message, of role `user`, with exactly one
content block holding the trimmed text; the `system` field is present exactly
when the system prompt is non-empty after trimming, and is then one block holding
the trimmed prompt; the message list does not depend on the system prompt;
`inferenceConfig` carries the given `maxTokens`, `temperature` and `topP`, or the
defaults 512, 0.7 and 0.9 for those left out; and this request is the one sent to
the provider. -/
theorem sendTextMessageToNova_request_shape
    (w : World) (tr : List Event) (text : String) (sp : Option String)
    (maxTokens temperature topP : JsVal) (h : jsTrim text ≠ "") :
    ∃ cmd, buildCommandInput w.env ⟨.str text, optPrompt sp, maxTokens, temperature, topP⟩
        = .ok cmd ∧
      cmd.messages = [{ role := "user", content := [{ text := jsTrim text }] }] ∧
      (cmd.system.isSome ↔ ∃ s, sp = some s ∧ jsTrim s ≠ "") ∧
      (∀ s, sp = some s → jsTrim s ≠ "" → cmd.system = some [{ text := jsTrim s }]) ∧
      (maxTokens ≠ .undefined → cmd.inferenceConfig.maxTokens = maxTokens) ∧
      (maxTokens = .undefined → cmd.inferenceConfig.maxTokens = .num 512) ∧
      (temperature ≠ .undefined → cmd.inferenceConfig.temperature = temperature) ∧
      (temperature = .undefined → cmd.inferenceConfig.temperature = .num (7 / 10)) ∧
      (topP ≠ .undefined → cmd.inferenceConfig.topP = topP) ∧
      (topP = .undefined → cmd.inferenceConfig.topP = .num (9 / 10)) ∧
      cmd.modelId = modelId w.env ∧
      ∃ rest, (sendTextMessageToNova w tr
          ⟨.str text, optPrompt sp, maxTokens, temperature, topP⟩).1
        = tr ++ Event.bedrockSend cmd :: rest := by
  have hb := buildCommandInput_ok w.env text sp maxTokens temperature topP h
  refine ⟨_, hb, rfl, ?_, ?_, (withDefault_spec _ _).1, (withDefault_spec _ _).2,
    (withDefault_spec _ _).1, (withDefault_spec _ _).2, (withDefault_spec _ _).1,
    (withDefault_spec _ _).2, rfl, ?_⟩
  · cases sp with
    | none => simp [expectedSystem]
    | some s => by_cases hs : jsTrim s = "" <;> simp [expectedSystem, hs]
  · intro s hs hne
    subst hs
    simp [expectedSystem, hne]
  · rcases sendTextMessageToNova_trace w tr _ _ hb with h1 | ⟨e, h1⟩
    · exact ⟨[], h1⟩
    · exact ⟨[Event.consoleError "Bedrock API Error:" e], h1⟩

/-- Witness of C8: the text `"  Hi "` with the prompt `" be kind "`. -/
theorem sendTextMessageToNova_request_shape_witness :
    ∃ cmd, buildCommandInput plainEnv
        ⟨.str "  Hi ", .str " be kind ", .undefined, .num 64, .undefined⟩ = .ok cmd ∧
      cmd.messages = [{ role := "user", content := [{ text := "Hi" }] }] ∧
      cmd.system = some [{ text := "be kind" }] ∧
      cmd.inferenceConfig.maxTokens = .num 512 ∧
      cmd.inferenceConfig.temperature = .num 64 := by
  obtain ⟨cmd, hcmd, hmsg, _, hsys, _, hmax, htemp, _, _, _, _, _⟩ :=
    sendTextMessageToNova_request_shape (calmWorld plainEnv (responseWith (.arr helloBlocks)))
      [] "  Hi " (some " be kind ") .undefined (.num 64) .undefined (by decide)
  exact ⟨cmd, hcmd, hmsg, hsys " be kind " rfl (by decide), hmax rfl, htemp (by simp)⟩

/-! ## Symbolic execution of the relay handler -/

theorem whitespace_only_trim (s : String) (h : ∀ c ∈ s.data, isJsWhiteSpace c = true) :
    jsTrim s = "" := by
  have h1 : trimStartChars s.data = [] := by
    simpa [trimStartChars, List.dropWhile_eq_nil_iff] using h
  simp only [jsTrim, h1]
  rfl

theorem novaParams_eq (text : String) :
    novaParams (.str text) =
      ⟨.str text, optPrompt (some systemPrompt), .num 512, .num (7 / 10), .num (9 / 10)⟩ := rfl

theorem buildCommandInput_relay (env : ProcessEnv) (text : String) (h : jsTrim text ≠ "") :
    buildCommandInput env (novaParams (.str text)) = .ok (relayCommand env text) := by
  rw [novaParams_eq, buildCommandInput_ok env text (some systemPrompt) _ _ _ h]
  rfl

theorem sendTextMessageToNova_cases (w : World) (tr : List Event) (p : NovaParams)
    (cmd : ConverseInput) (hcmd : buildCommandInput w.env p = .ok cmd) :
    (∃ t, sendTextMessageToNova w tr p = (tr ++ [Event.bedrockSend cmd], .ok t)) ∨
    ∃ e, sendTextMessageToNova w tr p =
      (tr ++ [Event.bedrockSend cmd, Event.consoleError "Bedrock API Error:" e],
        .error (mkError ("Bedrock API call failed: " ++ e.message))) := by
  simp only [sendTextMessageToNova, hcmd]
  cases hs : w.send tr cmd with
  | error e => exact Or.inr ⟨e, by simp⟩
  | ok response =>
    cases hr : extractReply response with
    | error e => exact Or.inr ⟨e, by simp [hr]⟩
    | ok t => exact Or.inl ⟨t, by simp [hr]⟩

/-- Every run of the handler on a non-blank text is one of five. -/
theorem sendMessage_cases (w : World) (userId text : String) (h : jsTrim text ≠ "") :
    (∃ e, w.encrypt [] (.str text) = .error e ∧
      sendMessage w userId (.str text) =
        ⟨[Event.encrypt (.str text), Event.consoleError "Chat sendMessage error:" e,
          Event.respond 500 (errorBody w.env e)], .ok (), none⟩) ∨
    (∃ c e, w.encrypt [] (.str text) = .ok c ∧
      w.save [Event.encrypt (.str text)] (userRecord userId c) = .error e ∧
      sendMessage w userId (.str text) =
        ⟨[Event.encrypt (.str text), Event.save (userRecord userId c) true,
          Event.consoleError "Chat sendMessage error:" e,
          Event.respond 500 (errorBody w.env e)], .ok (), none⟩) ∨
    (∃ c cause, w.encrypt [] (.str text) = .ok c ∧
      w.save [Event.encrypt (.str text)] (userRecord userId c) = .ok () ∧
      (sendTextMessageToNova w
        [Event.encrypt (.str text), Event.save (userRecord userId c) true,
          Event.nova (novaParams (.str text))] (novaParams (.str text))).2 =
        .error (mkError ("Bedrock API call failed: " ++ cause.message)) ∧
      sendMessage w userId (.str text) =
        ⟨relayPrefix w.env userId text c ++
          [Event.consoleError "Bedrock API Error:" cause,
            Event.consoleError "Chat sendMessage error:"
              (mkError ("Bedrock API call failed: " ++ cause.message)),
            Event.respond 500
              (errorBody w.env (mkError ("Bedrock API call failed: " ++ cause.message)))],
          .ok (), none⟩) ∨
    (∃ c reply e, w.encrypt [] (.str text) = .ok c ∧
      w.save [Event.encrypt (.str text)] (userRecord userId c) = .ok () ∧
      (sendTextMessageToNova w
        [Event.encrypt (.str text), Event.save (userRecord userId c) true,
          Event.nova (novaParams (.str text))] (novaParams (.str text))).2 = .ok reply ∧
      w.encrypt (relayPrefix w.env userId text c ++
        [Event.respond 200 (replyBody w.env reply)]) (.str reply) = .error e ∧
      sendMessage w userId (.str text) =
        ⟨relayPrefix w.env userId text c ++
          [Event.respond 200 (replyBody w.env reply), Event.encrypt (.str reply),
            Event.consoleError "Chat sendMessage error:" e,
            Event.lateRespond 500 (errorBody w.env e)],
          .error errHeadersSent, none⟩) ∨
    (∃ c reply c2, w.encrypt [] (.str text) = .ok c ∧
      w.save [Event.encrypt (.str text)] (userRecord userId c) = .ok () ∧
      (sendTextMessageToNova w
        [Event.encrypt (.str text), Event.save (userRecord userId c) true,
          Event.nova (novaParams (.str text))] (novaParams (.str text))).2 = .ok reply ∧
      w.encrypt (relayPrefix w.env userId text c ++
        [Event.respond 200 (replyBody w.env reply)]) (.str reply) = .ok c2 ∧
      sendMessage w userId (.str text) =
        ⟨relayPrefix w.env userId text c ++
          [Event.respond 200 (replyBody w.env reply), Event.encrypt (.str reply),
            Event.save (botRecord userId c2) false],
          .ok (),
          some (w.save (relayPrefix w.env userId text c ++
            [Event.respond 200 (replyBody w.env reply), Event.encrypt (.str reply)])
            (botRecord userId c2))⟩) := by
  have hblank := isBlank_str "message" text h
  cases henc : w.encrypt [] (.str text) with
  | error e =>
    refine Or.inl ⟨e, rfl, ?_⟩
    simp [sendMessage, hblank, tryBlock, henc, catchBlock, resJson, headersSent]
  | ok c =>
    cases hsave : w.save [Event.encrypt (.str text)] (userRecord userId c) with
    | error e =>
      refine Or.inr (Or.inl ⟨c, e, rfl, hsave, ?_⟩)
      simp only [userRecord] at hsave
      simp [sendMessage, hblank, tryBlock, henc, hsave, catchBlock, resJson, headersSent,
        userRecord]
    | ok u =>
      have hsave2 := hsave
      simp only [userRecord] at hsave2
      rcases sendTextMessageToNova_cases w
          [Event.encrypt (.str text), Event.save (userRecord userId c) true,
            Event.nova (novaParams (.str text))] (novaParams (.str text)) _
          (buildCommandInput_relay w.env text h) with ⟨reply, hn⟩ | ⟨cause, hn⟩
      · have hn2 := hn
        simp only [userRecord] at hn2
        cases henc2 : w.encrypt (relayPrefix w.env userId text c ++
            [Event.respond 200 (replyBody w.env reply)]) (.str reply) with
        | error e =>
          refine Or.inr (Or.inr (Or.inr (Or.inl ⟨c, reply, e, rfl, hsave, ?_, henc2, ?_⟩)))
          · rw [hn]
          · simp only [relayPrefix, userRecord, List.cons_append, List.nil_append] at henc2
            simp [sendMessage, hblank, tryBlock, henc, hsave2, hn2, catchBlock, resJson,
              headersSent, userRecord, relayPrefix, henc2]
        | ok c2 =>
          refine Or.inr (Or.inr (Or.inr (Or.inr ⟨c, reply, c2, rfl, hsave, ?_, henc2, ?_⟩)))
          · rw [hn]
          · simp only [relayPrefix, userRecord, List.cons_append, List.nil_append] at henc2
            simp [sendMessage, hblank, tryBlock, henc, hsave2, hn2, catchBlock, resJson,
              headersSent, userRecord, relayPrefix, botRecord, henc2]
      · have hn2 := hn
        simp only [userRecord] at hn2
        refine Or.inr (Or.inr (Or.inl ⟨c, cause, rfl, hsave, ?_, ?_⟩))
        · rw [hn]
        · simp [sendMessage, hblank, tryBlock, henc, hsave2, hn2, catchBlock, resJson,
            headersSent, userRecord, relayPrefix]

theorem isBlank_false_inv (expr : String) (message : JsVal)
    (h : isBlank expr message = .ok false) :
    ∃ text, message = .str text ∧ jsTrim text ≠ "" := by
  cases message with
  | str text =>
    refine ⟨text, rfl, ?_⟩
    intro ht
    by_cases h0 : text = "" <;> simp [isBlank, JsVal.truthy, callTrim, h0, ht] at h
  | undefined => simp [isBlank, JsVal.truthy] at h
  | null => simp [isBlank, JsVal.truthy] at h
  | bool b => cases b <;> simp [isBlank, JsVal.truthy, callTrim] at h
  | num q => by_cases hq : q = 0 <;> simp [isBlank, JsVal.truthy, callTrim, hq] at h
  | arr items => simp [isBlank, JsVal.truthy, callTrim] at h
  | obj fields => simp [isBlank, JsVal.truthy, callTrim] at h

/-! ## Claims on the relay handler -/

/-- C3: a message that is missing (`undefined` or `null`), empty or made of white
space only is answered with status 400 and the body `{msg: 'Message is required'}`;
no record is handed to the store, the adapter is not called and no request is sent
to the provider. -/
theorem sendMessage_blank_rejected (w : World) (userId : String) (message : JsVal)
    (h : message = .undefined ∨ message = .null ∨
      ∃ s, message = .str s ∧ ∀ c ∈ s.data, isJsWhiteSpace c = true) :
    responses (sendMessage w userId message).trace =
        [(400, .obj [("msg", .str "Message is required")])] ∧
      storeWrites (sendMessage w userId message).trace = [] ∧
      novaCalls (sendMessage w userId message).trace = [] ∧
      bedrockCalls (sendMessage w userId message).trace = [] ∧
      (sendMessage w userId message).trace =
        [Event.respond 400 (.obj [("msg", .str "Message is required")])] ∧
      (sendMessage w userId message).outcome = .ok () ∧
      (sendMessage w userId message).background = none := by
  have hrun : sendMessage w userId message =
      ⟨[Event.respond 400 (.obj [("msg", .str "Message is required")])], .ok (), none⟩ := by
    rcases h with rfl | rfl | ⟨s, rfl, hs⟩
    · simp [sendMessage, isBlank, JsVal.truthy, resJson, headersSent]
    · simp [sendMessage, isBlank, JsVal.truthy, resJson, headersSent]
    · have ht := whitespace_only_trim s hs
      by_cases h0 : s = "" <;>
        simp [sendMessage, isBlank, JsVal.truthy, callTrim, resJson, headersSent, h0, ht]
  rw [hrun]
  simp [responses, storeWrites, novaCalls, bedrockCalls]

/-- Witness of C3: the message `" \t\n"`. -/
theorem sendMessage_blank_rejected_witness :
    responses (sendMessage (calmWorld plainEnv (responseWith (.arr helloBlocks))) "u1"
        (.str " \t\n")).trace = [(400, .obj [("msg", .str "Message is required")])] :=
  (sendMessage_blank_rejected (calmWorld plainEnv (responseWith (.arr helloBlocks))) "u1"
    (.str " \t\n") (Or.inr (Or.inr ⟨_, rfl, by decide⟩))).1

/-- C4: for a message that is non-empty after trimming, the handler first hands
to the store, and awaits, one record tagged `isUser = true` carrying the caller's
user id and the encrypted message; every later write is un-awaited and tagged
`isUser = false`; the adapter is called only after that write, and only if it
succeeded; when it fails the request ends with a 500 response, the adapter is not
called, nothing is sent to the provider and no other record is written. The
record carries what `encrypt(message)` returns; should that call throw, there is
no record to write: nothing is stored, the adapter is not called and the request
ends with a 500 response as well. -/
theorem sendMessage_user_write_first (w : World) (userId text : String)
    (h : jsTrim text ≠ "") :
    (∀ cipher, w.encrypt [] (.str text) = .ok cipher →
      ∃ rest, (sendMessage w userId (.str text)).trace =
          Event.encrypt (.str text) :: Event.save (userRecord userId cipher) true :: rest ∧
        (∀ x ∈ storeWrites rest, x.2 = false ∧ x.1.isUser = false) ∧
        (storeWrites (sendMessage w userId (.str text)).trace).filter (fun x => x.2) =
          [(userRecord userId cipher, true)] ∧
        (novaCalls rest ≠ [] →
          w.save [Event.encrypt (.str text)] (userRecord userId cipher) = .ok ()) ∧
        (∀ err, w.save [Event.encrypt (.str text)] (userRecord userId cipher) = .error err →
          novaCalls rest = [] ∧ bedrockCalls rest = [] ∧ storeWrites rest = [] ∧
          responses rest = [(500, errorBody w.env err)])) ∧
    (∀ err, w.encrypt [] (.str text) = .error err →
      storeWrites (sendMessage w userId (.str text)).trace = [] ∧
      novaCalls (sendMessage w userId (.str text)).trace = [] ∧
      bedrockCalls (sendMessage w userId (.str text)).trace = [] ∧
      responses (sendMessage w userId (.str text)).trace = [(500, errorBody w.env err)]) := by
  constructor
  · intro cipher henc
    rcases sendMessage_cases w userId text h with
      ⟨e, he, _⟩ | ⟨c, e, hc, hs, hrun⟩ | ⟨c, cause, hc, hs, _, hrun⟩ |
      ⟨c, reply, e, hc, hs, _, _, hrun⟩ | ⟨c, reply, c2, hc, hs, _, _, hrun⟩
    · rw [henc] at he
      cases he
    all_goals
      rw [henc] at hc
      cases hc
      rw [hrun]
      refine ⟨_, rfl, ?_, ?_, ?_, ?_⟩ <;>
        simp [storeWrites, novaCalls, bedrockCalls, responses, relayPrefix, hs, botRecord]
  · intro err henc
    rcases sendMessage_cases w userId text h with
      ⟨e, he, hrun⟩ | ⟨c, e, hc, _⟩ | ⟨c, cause, hc, _⟩ |
      ⟨c, reply, e, hc, _⟩ | ⟨c, reply, c2, hc, _⟩
    · rw [henc] at he
      cases he
      rw [hrun]
      simp [storeWrites, novaCalls, bedrockCalls, responses]
    all_goals
      rw [henc] at hc
      cases hc

/-- Witness of C4: a store that rejects the user record. -/
theorem sendMessage_user_write_first_witness :
    (storeWrites (sendMessage (failingStoreWorld plainEnv) "u1" (.str "hello")).trace).filter
        (fun x => x.2) = [(userRecord "u1" "ciphertext", true)] ∧
      novaCalls (sendMessage (failingStoreWorld plainEnv) "u1" (.str "hello")).trace = [] := by
  obtain ⟨rest, htrace, _, h3, _, h5⟩ :=
    (sendMessage_user_write_first (failingStoreWorld plainEnv) "u1" "hello"
      (by decide)).1 "ciphertext" rfl
  refine ⟨h3, ?_⟩
  rw [htrace]
  simpa [novaCalls] using (h5 (mkError "db down") rfl).1

/-- C5: for a message that is non-empty after trimming, when the user write and
the model call succeed, the adapter is called exactly once, with that message,
the fixed system prompt and `maxTokens = 512`, `temperature = 0.7`, `topP = 0.9`;
the only response is `200 {reply, model}` with the adapter's text and the
configured model identifier; and the bot record, tagged `isUser = false` and
holding the encrypted reply for the same user id, is handed to the store
un-awaited, after that response. -/
theorem sendMessage_success_flow (w : World) (userId text cipher reply : String)
    (h : jsTrim text ≠ "") (henc : w.encrypt [] (.str text) = .ok cipher)
    (hsave : w.save [Event.encrypt (.str text)] (userRecord userId cipher) = .ok ())
    (hnova : (sendTextMessageToNova w
        [Event.encrypt (.str text), Event.save (userRecord userId cipher) true,
          Event.nova (novaParams (.str text))] (novaParams (.str text))).2 = .ok reply) :
    novaCalls (sendMessage w userId (.str text)).trace =
        [⟨.str text, .str systemPrompt, .num 512, .num (7 / 10), .num (9 / 10)⟩] ∧
      responses (sendMessage w userId (.str text)).trace =
        [(200, .obj [("reply", .str reply), ("model", .str (modelId w.env))])] ∧
      ∃ tail, (sendMessage w userId (.str text)).trace =
          relayPrefix w.env userId text cipher ++
            Event.respond 200 (replyBody w.env reply) :: tail ∧
        ∀ cipher2, w.encrypt (relayPrefix w.env userId text cipher ++
            [Event.respond 200 (replyBody w.env reply)]) (.str reply) = .ok cipher2 →
          tail = [Event.encrypt (.str reply), Event.save (botRecord userId cipher2) false] ∧
          storeWrites (sendMessage w userId (.str text)).trace =
            [(userRecord userId cipher, true), (botRecord userId cipher2, false)] := by
  rcases sendMessage_cases w userId text h with
    ⟨e, he, _⟩ | ⟨c, e, hc, hs, _⟩ | ⟨c, cause, hc, _, hn, _⟩ |
    ⟨c, r, e, hc, _, hn, he2, hrun⟩ | ⟨c, r, c2, hc, _, hn, he2, hrun⟩
  · rw [henc] at he
    cases he
  · rw [henc] at hc
    cases hc
    rw [hsave] at hs
    cases hs
  · rw [henc] at hc
    cases hc
    rw [hnova] at hn
    cases hn
  · rw [henc] at hc
    cases hc
    rw [hnova] at hn
    cases hn
    rw [hrun]
    refine ⟨?_, ?_, _, rfl, ?_⟩
    · simp [novaCalls, relayPrefix, novaParams]
    · simp [responses, relayPrefix, replyBody]
    · intro cipher2 hc2
      rw [he2] at hc2
      cases hc2
  · rw [henc] at hc
    cases hc
    rw [hnova] at hn
    cases hn
    rw [hrun]
    refine ⟨?_, ?_, _, rfl, ?_⟩
    · simp [novaCalls, relayPrefix, novaParams]
    · simp [responses, relayPrefix, replyBody]
    · intro cipher2 hc2
      rw [he2] at hc2
      cases hc2
      simp [storeWrites, relayPrefix]

/-- Witness of C5: the provider answers `["Hello", "", "there"]`. -/
theorem sendMessage_success_flow_witness :
    responses (sendMessage (calmWorld plainEnv (responseWith (.arr helloBlocks))) "u1"
        (.str "I'm feeling anxious")).trace =
      [(200, .obj [("reply", .str "Hello\nthere"), ("model", .str "amazon.nova-pro-v1:0")])] :=
  (sendMessage_success_flow (calmWorld plainEnv (responseWith (.arr helloBlocks))) "u1"
    "I'm feeling anxious" "ciphertext" "Hello\nthere" (by decide) rfl rfl rfl).2.1

theorem errorBody_error (env : ProcessEnv) (err : JsError) :
    (errorBody env err).getProp "error" =
      .ok (.str (if env.NODE_ENV = some "development" ∧ err.message ≠ "" then err.message
        else "Server error")) := by
  by_cases hd : env.NODE_ENV = some "development" <;> by_cases hm : err.message = "" <;>
    simp [errorBody, JsVal.getProp, JsVal.lookupField, errorMessage, hd, hm]

/-- Counterexample to C6 as stated: in the non-production mode `test` a store
failure `db down` is answered with the generic `error: 'Server error'`, not with
the underlying message. -/
theorem sendMessage_error_generic_in_test_mode :
    (modeEnv "test").NODE_ENV ≠ some "production" ∧
      responses (sendMessage (failingStoreWorld (modeEnv "test")) "u1" (.str "hello")).trace =
        [(500, .obj [("error", .str "Server error"), ("details", .str "db down")])] :=
  ⟨by decide, rfl⟩

/-- The same store failure in mode `production`: the body of the 500 response. -/
theorem sendMessage_error_body_in_production :
    responses (sendMessage (failingStoreWorld (modeEnv "production")) "u1"
        (.str "hello")).trace =
      [(500, .obj [("error", .str "Server error"), ("details", .str "db down")])] :=
  rfl

/-- C6, amended: when the handler fails with an internal error before a response
was sent (the encryption of the message, the user write or the adapter fails with
`err`), the only response has status 500 and a JSON body whose `error` field is
the underlying message when `NODE_ENV` is exactly `development` and that message
is non-empty, and the generic `Server error` in every other case. -/
theorem sendMessage_internal_error_body (w : World) (userId text : String) (err : JsError)
    (h : jsTrim text ≠ "")
    (hfail : w.encrypt [] (.str text) = .error err ∨
      (∃ c, w.encrypt [] (.str text) = .ok c ∧
        w.save [Event.encrypt (.str text)] (userRecord userId c) = .error err) ∨
      (∃ c, w.encrypt [] (.str text) = .ok c ∧
        w.save [Event.encrypt (.str text)] (userRecord userId c) = .ok () ∧
        (sendTextMessageToNova w
          [Event.encrypt (.str text), Event.save (userRecord userId c) true,
            Event.nova (novaParams (.str text))] (novaParams (.str text))).2 = .error err)) :
    ∃ body, responses (sendMessage w userId (.str text)).trace = [(500, body)] ∧
      body.getProp "error" =
        .ok (.str (if w.env.NODE_ENV = some "development" ∧ err.message ≠ "" then err.message
          else "Server error")) := by
  have key : responses (sendMessage w userId (.str text)).trace =
      [(500, errorBody w.env err)] := by
    rcases sendMessage_cases w userId text h with
      ⟨e, he, hrun⟩ | ⟨c, e, hc, hs, hrun⟩ | ⟨c, cause, hc, hs, hn, hrun⟩ |
      ⟨c, r, e, hc, hs, hn, _, _⟩ | ⟨c, r, c2, hc, hs, hn, _, _⟩
    · rcases hfail with h1 | ⟨c', h1, _⟩ | ⟨c', h1, _, _⟩
      · rw [he] at h1
        cases h1
        rw [hrun]
        simp [responses]
      · rw [he] at h1
        cases h1
      · rw [he] at h1
        cases h1
    · rcases hfail with h1 | ⟨c', h1, h2⟩ | ⟨c', h1, h2, _⟩
      · rw [hc] at h1
        cases h1
      · rw [hc] at h1
        cases h1
        rw [hs] at h2
        cases h2
        rw [hrun]
        simp [responses]
      · rw [hc] at h1
        cases h1
        rw [hs] at h2
        cases h2
    · rcases hfail with h1 | ⟨c', h1, h2⟩ | ⟨c', h1, _, h3⟩
      · rw [hc] at h1
        cases h1
      · rw [hc] at h1
        cases h1
        rw [hs] at h2
        cases h2
      · rw [hc] at h1
        cases h1
        rw [hn] at h3
        cases h3
        rw [hrun]
        simp [responses, relayPrefix]
    · rcases hfail with h1 | ⟨c', h1, h2⟩ | ⟨c', h1, _, h3⟩
      · rw [hc] at h1
        cases h1
      · rw [hc] at h1
        cases h1
        rw [hs] at h2
        cases h2
      · rw [hc] at h1
        cases h1
        rw [hn] at h3
        cases h3
    · rcases hfail with h1 | ⟨c', h1, h2⟩ | ⟨c', h1, _, h3⟩
      · rw [hc] at h1
        cases h1
      · rw [hc] at h1
        cases h1
        rw [hs] at h2
        cases h2
      · rw [hc] at h1
        cases h1
        rw [hn] at h3
        cases h3
  exact ⟨_, key, errorBody_error w.env err⟩

/-- Witness of the amended C6: a store failure in mode `development`. -/
theorem sendMessage_internal_error_body_witness :
    ∃ body, responses (sendMessage (failingStoreWorld (modeEnv "development")) "u1"
        (.str "hello")).trace = [(500, body)] ∧
      body.getProp "error" = .ok (.str "db down") :=
  sendMessage_internal_error_body (failingStoreWorld (modeEnv "development")) "u1" "hello"
    (mkError "db down") (by decide) (Or.inr (Or.inl ⟨"ciphertext", rfl, rfl⟩))

/-- C7: once the reply has been sent with status 200, it is the only response
the caller receives, whatever happens in step 4 (the encryption of the reply or
the write of the bot record failing): no second response, no 500 status and no
error body is transmitted. -/
theorem sendMessage_reply_unaffected (w : World) (userId : String) (message body : JsVal)
    (h200 : Event.respond 200 body ∈ (sendMessage w userId message).trace) :
    responses (sendMessage w userId message).trace = [(200, body)] := by
  cases hb : isBlank "message" message with
  | error e => simp [sendMessage, hb] at h200
  | ok blank =>
    cases blank with
    | true => simp [sendMessage, hb, resJson, headersSent] at h200
    | false =>
      obtain ⟨text, rfl, ht⟩ := isBlank_false_inv "message" message hb
      rcases sendMessage_cases w userId text ht with
        ⟨e, _, hrun⟩ | ⟨c, e, _, _, hrun⟩ | ⟨c, cause, _, _, _, hrun⟩ |
        ⟨c, r, e, _, _, _, _, hrun⟩ | ⟨c, r, c2, _, _, _, _, hrun⟩ <;>
      · rw [hrun] at h200 ⊢
        simp [relayPrefix] at h200 <;>
        · subst h200
          simp [responses, relayPrefix]

/-- Witness of C7: the background write of the bot record is rejected; the
caller has received the 200 response and nothing else. -/
theorem sendMessage_reply_unaffected_witness :
    responses (sendMessage (failingBotStoreWorld plainEnv) "u1" (.str "hello")).trace =
        [(200, replyBody plainEnv "Hello\nthere")] ∧
      (sendMessage (failingBotStoreWorld plainEnv) "u1" (.str "hello")).background =
        some (.error (mkError "db down")) :=
  ⟨sendMessage_reply_unaffected (failingBotStoreWorld plainEnv) "u1" (.str "hello")
    (replyBody plainEnv "Hello\nthere")
    (by
      have ht : (sendMessage (failingBotStoreWorld plainEnv) "u1" (.str "hello")).trace =
          relayPrefix plainEnv "u1" "hello" "ciphertext" ++
            [Event.respond 200 (replyBody plainEnv "Hello\nthere"),
              Event.encrypt (.str "Hello\nthere"),
              Event.save (botRecord "u1" "ciphertext") false] := rfl
      rw [ht]
      simp), rfl⟩

/-- The other failure of step 4, the encryption of the reply throwing: the
`catch` block calls `res.status(500).json(...)` after the 200 was sent, the call
throws, and the transmitted responses are still the 200 alone. -/
theorem sendMessage_late_error_not_transmitted :
    (sendMessage (failingStep4World plainEnv) "u1" (.str "hello")).trace =
        relayPrefix plainEnv "u1" "hello" "ciphertext" ++
          [Event.respond 200 (replyBody plainEnv "Hello\nthere"),
            Event.encrypt (.str "Hello\nthere"),
            Event.consoleError "Chat sendMessage error:" (mkError "cipher failure"),
            Event.lateRespond 500 (errorBody plainEnv (mkError "cipher failure"))] ∧
      responses (sendMessage (failingStep4World plainEnv) "u1" (.str "hello")).trace =
        [(200, replyBody plainEnv "Hello\nthere")] ∧
      (sendMessage (failingStep4World plainEnv) "u1" (.str "hello")).outcome =
        .error errHeadersSent :=
  ⟨rfl, rfl, rfl⟩

/-! ## Lemmas on the token cache -/

theorem getItem_setItem_same (st : Storage) (key value : String) :
    getItem (setItem st key value) key = some value := by
  induction st with
  | nil => simp [setItem, getItem]
  | cons kv rest ih =>
    obtain ⟨k, v⟩ := kv
    by_cases hk : k = key <;> simp [setItem, getItem, hk, ih]

theorem getItem_setItem_other (st : Storage) (key value other : String) (h : other ≠ key) :
    getItem (setItem st key value) other = getItem st other := by
  induction st with
  | nil => simp [setItem, getItem, Ne.symm h]
  | cons kv rest ih =>
    obtain ⟨k, v⟩ := kv
    by_cases hk : k = key
    · subst hk
      simp [setItem, getItem, Ne.symm h]
    · by_cases ho : k = other
      · subst ho
        simp [setItem, getItem, h]
      · simp [setItem, getItem, hk, ho, ih]

theorem digitChar_spec (k : Nat) (hk : k < 10) :
    isDecimalDigit (Nat.digitChar k) = true ∧ (Nat.digitChar k).toNat - 48 = k := by
  interval_cases k <;> decide

theorem digitsValue_append (pre : List Char) (d : Char) :
    digitsValue (pre ++ [d]) = 10 * digitsValue pre + (d.toNat - 48) := by
  simp [digitsValue, List.foldl_append]

theorem toDigitsCore_spec (fuel : Nat) :
    ∀ n ds, n < fuel → ∃ pre, Nat.toDigitsCore 10 fuel n ds = pre ++ ds ∧ pre ≠ [] ∧
      (∀ c ∈ pre, isDecimalDigit c = true) ∧ digitsValue pre = n := by
  induction fuel with
  | zero => intro n ds h; omega
  | succ fuel ih =>
    intro n ds hn
    have hd := digitChar_spec (n % 10) (Nat.mod_lt _ (by decide))
    by_cases h0 : n / 10 = 0
    · refine ⟨[Nat.digitChar (n % 10)], ?_, by simp, ?_, ?_⟩
      · simp [Nat.toDigitsCore, h0]
      · intro c hc
        simp only [List.mem_singleton] at hc
        rw [hc]
        exact hd.1
      · simp only [digitsValue, List.foldl_cons, List.foldl_nil, hd.2]
        omega
    · have hlt : n / 10 < fuel := by omega
      obtain ⟨pre, hpre, _, hdig, hval⟩ := ih (n / 10) (Nat.digitChar (n % 10) :: ds) hlt
      refine ⟨pre ++ [Nat.digitChar (n % 10)], ?_, by simp, ?_, ?_⟩
      · simp [Nat.toDigitsCore, h0, hpre]
      · intro c hc
        rcases List.mem_append.1 hc with hc | hc
        · exact hdig c hc
        · simp only [List.mem_singleton] at hc
          rw [hc]
          exact hd.1
      · rw [digitsValue_append, hval, hd.2]
        omega

theorem digit_not_whiteSpace (c : Char) (h : isDecimalDigit c = true) :
    isJsWhiteSpace c = false := by
  simp only [isDecimalDigit, Bool.and_eq_true, decide_eq_true_eq] at h
  simp only [isJsWhiteSpace, Bool.or_eq_false_iff, Bool.and_eq_false_iff, beq_eq_false_iff_ne,
    decide_eq_false_iff_not]
  omega

/-- The decimal string of a natural number is read back by `parseInt(s, 10)`. -/
theorem parseInt10_repr (n : Nat) : parseInt10 (Nat.repr n) = some (n : Int) := by
  obtain ⟨pre, hpre, hne, hdig, hval⟩ := toDigitsCore_spec (n + 1) n [] (Nat.lt_succ_self n)
  have hdata : (Nat.repr n).data = pre := by
    simp [Nat.repr, Nat.toDigits, hpre, List.asString]
  obtain ⟨c, rest, rfl⟩ : ∃ c rest, pre = c :: rest := by
    cases pre with
    | nil => exact absurd rfl hne
    | cons c rest => exact ⟨c, rest, rfl⟩
  have hc : isDecimalDigit c = true := hdig c (List.mem_cons_self _ _)
  have hws : isJsWhiteSpace c = false := digit_not_whiteSpace c hc
  have hsign : c.toNat ≠ 45 ∧ c.toNat ≠ 43 := by
    simp only [isDecimalDigit, Bool.and_eq_true, decide_eq_true_eq] at hc
    omega
  have htake : (c :: rest).takeWhile isDecimalDigit = c :: rest :=
    List.takeWhile_eq_self_iff.2 hdig
  simp [parseInt10, hdata, trimStartChars, hws, hsign.1, hsign.2, htake, hval]

theorem cachedValid_fresh (st : Storage) (now : Nat) (cachedToken expiry : String) (T : Int)
    (htok : getItem st TOKEN_STORAGE_KEY = some cachedToken) (hne : cachedToken ≠ "")
    (hexp : getItem st TOKEN_EXPIRY_KEY = some expiry) (hT : parseInt10 expiry = some T)
    (hlt : (now : Int) < T) : cachedValid st now = some cachedToken := by
  have hexpne : expiry ≠ "" := by
    intro h0
    rw [h0] at hT
    have hnan : parseInt10 "" = none := by decide
    rw [hnan] at hT
    cases hT
  simp [cachedValid, htok, hexp, hne, hexpne, nowBefore, hT, hlt]

theorem cachedValid_expired (st : Storage) (now : Nat) (expiry : String) (T : Int)
    (hexp : getItem st TOKEN_EXPIRY_KEY = some expiry) (hT : parseInt10 expiry = some T)
    (hle : T ≤ (now : Int)) : cachedValid st now = none := by
  cases htok : getItem st TOKEN_STORAGE_KEY with
  | none => simp [cachedValid, htok]
  | some tok => simp [cachedValid, htok, hexp, nowBefore, hT, not_lt.2 hle]

theorem getBackendToken_refresh (w : AuthWorld) (st : Storage)
    (h : cachedValid st w.nowAtCheck = none) :
    getBackendToken w st =
      match fetchToken w with
      | .ok token =>
        { storage := setItem (setItem st TOKEN_STORAGE_KEY token) TOKEN_EXPIRY_KEY
            (Nat.repr (w.nowAtStore + 50 * 60 * 1000))
          requests := [("POST", w.apiBase ++ "/auth/guest")]
          logged := []
          result := .ok token }
      | .error error =>
        { storage := st, requests := [("POST", w.apiBase ++ "/auth/guest")],
          logged := [error], result := .error error } := by
  simp only [getBackendToken, h]

theorem getBackendToken_requests (w : AuthWorld) (st : Storage)
    (h : cachedValid st w.nowAtCheck = none) :
    (getBackendToken w st).requests = [("POST", w.apiBase ++ "/auth/guest")] := by
  rw [getBackendToken_refresh w st h]
  cases fetchToken w <;> rfl

/-! ## Claims on the token cache -/

/-- C9: with a cached token and a stored expiry timestamp `T`: while the current
time is before `T`, `getBackendToken` makes no network call, returns the cached
token and leaves the storage as it is; once the current time has reached `T` it
makes exactly one network call and, on a successful response carrying a token,
stores that token with the expiry `Date.now() + 3000000` (50 minutes), read back as
that timestamp by the next call, leaves every other key alone, and returns the
token. -/
theorem getBackendToken_cache (w : AuthWorld) (st : Storage) (cachedToken expiry : String)
    (T : Int)
    (htok : getItem st TOKEN_STORAGE_KEY = some cachedToken) (hne : cachedToken ≠ "")
    (hexp : getItem st TOKEN_EXPIRY_KEY = some expiry) (hT : parseInt10 expiry = some T) :
    ((w.nowAtCheck : Int) < T →
      (getBackendToken w st).requests = [] ∧
      (getBackendToken w st).result = .ok cachedToken ∧
      (getBackendToken w st).storage = st) ∧
    (T ≤ (w.nowAtCheck : Int) →
      (getBackendToken w st).requests = [("POST", w.apiBase ++ "/auth/guest")] ∧
      ∀ status token, w.fetch = .ok ⟨status, .ok (some token)⟩ →
        200 ≤ status → status ≤ 299 → token ≠ "" →
        (getBackendToken w st).result = .ok token ∧
        getItem (getBackendToken w st).storage TOKEN_STORAGE_KEY = some token ∧
        getItem (getBackendToken w st).storage TOKEN_EXPIRY_KEY =
          some (Nat.repr (w.nowAtStore + 3000000)) ∧
        parseInt10 (Nat.repr (w.nowAtStore + 3000000)) = some ((w.nowAtStore : Int) + 3000000) ∧
        ∀ key, key ≠ TOKEN_STORAGE_KEY → key ≠ TOKEN_EXPIRY_KEY →
          getItem (getBackendToken w st).storage key = getItem st key) := by
  constructor
  · intro hlt
    have hv := cachedValid_fresh st w.nowAtCheck cachedToken expiry T htok hne hexp hT hlt
    simp [getBackendToken, hv]
  · intro hle
    have hv := cachedValid_expired st w.nowAtCheck expiry T hexp hT hle
    refine ⟨getBackendToken_requests w st hv, ?_⟩
    intro status token hfetch h200 h299 htoken
    have hft : fetchToken w = .ok token := by
      simp [fetchToken, hfetch, FetchResponse.ok, h200, h299, htoken]
    have hkeys : TOKEN_STORAGE_KEY ≠ TOKEN_EXPIRY_KEY := by decide
    rw [getBackendToken_refresh w st hv, hft]
    refine ⟨rfl, ?_, ?_, ?_, ?_⟩
    · show getItem (setItem (setItem st TOKEN_STORAGE_KEY token) TOKEN_EXPIRY_KEY _)
        TOKEN_STORAGE_KEY = some token
      rw [getItem_setItem_other _ _ _ _ hkeys, getItem_setItem_same]
    · show getItem (setItem (setItem st TOKEN_STORAGE_KEY token) TOKEN_EXPIRY_KEY _)
        TOKEN_EXPIRY_KEY = _
      rw [getItem_setItem_same]
    · rw [parseInt10_repr]
      simp
    · intro key h1 h2
      show getItem (setItem (setItem st TOKEN_STORAGE_KEY token) TOKEN_EXPIRY_KEY _) key = _
      rw [getItem_setItem_other _ _ _ _ h2, getItem_setItem_other _ _ _ _ h1]

/-- Witness of C9: one millisecond before the expiry the cached token is served
without a request; at the expiry the token is refreshed. -/
theorem getBackendToken_cache_witness :
    ((getBackendToken (issuingWorld 1699999999999 1700000000005) cachedStorage).requests = [] ∧
      (getBackendToken (issuingWorld 1699999999999 1700000000005) cachedStorage).result =
        .ok "jwt-1" ∧
      (getBackendToken (issuingWorld 1699999999999 1700000000005) cachedStorage).storage =
        cachedStorage) ∧
    (getBackendToken (issuingWorld 1700000000000 1700000000005) cachedStorage).storage =
      [("theme", "dark"), (TOKEN_STORAGE_KEY, "jwt-2"), (TOKEN_EXPIRY_KEY, "1700003000005")] :=
  ⟨(getBackendToken_cache (issuingWorld 1699999999999 1700000000005) cachedStorage "jwt-1"
      "1700000000000" 1700000000000 rfl (by decide) rfl (by decide)).1 (by decide),
    by decide⟩

/-- C10: when `getBackendToken` has to refresh (no cached token, no stored expiry,
or the expiry reached), then, given the response of the auth endpoint, it fails
exactly when the status is not successful or the body carries no non-empty token;
it also fails when the request itself fails; and every failing call leaves the
storage exactly as it was. -/
theorem getBackendToken_refresh_failure (w : AuthWorld) (st : Storage)
    (hrefresh : getItem st TOKEN_STORAGE_KEY = none ∨ getItem st TOKEN_EXPIRY_KEY = none ∨
      ∃ expiry T, getItem st TOKEN_EXPIRY_KEY = some expiry ∧ parseInt10 expiry = some T ∧
        T ≤ (w.nowAtCheck : Int)) :
    (∀ response, w.fetch = .ok response →
      ((∃ e, (getBackendToken w st).result = .error e) ↔
        (response.ok = false ∨
          ¬ ∃ token, token ≠ "" ∧ response.token = .ok (some token)))) ∧
    (∀ e, w.fetch = .error e → (getBackendToken w st).result = .error e) ∧
    (∀ e, (getBackendToken w st).result = .error e → (getBackendToken w st).storage = st ∧
      getItem (getBackendToken w st).storage TOKEN_STORAGE_KEY = getItem st TOKEN_STORAGE_KEY ∧
      getItem (getBackendToken w st).storage TOKEN_EXPIRY_KEY = getItem st TOKEN_EXPIRY_KEY) := by
  have hv : cachedValid st w.nowAtCheck = none := by
    rcases hrefresh with h | h | ⟨expiry, T, hexp, hT, hle⟩
    · simp [cachedValid, h]
    · cases htok : getItem st TOKEN_STORAGE_KEY <;> simp [cachedValid, h, htok]
    · exact cachedValid_expired st w.nowAtCheck expiry T hexp hT hle
  have hres : (getBackendToken w st).result = fetchToken w := by
    rw [getBackendToken_refresh w st hv]
    cases fetchToken w <;> rfl
  refine ⟨?_, ?_, ?_⟩
  · intro response hfetch
    rw [hres]
    by_cases hok : response.ok = true
    · cases htk : response.token with
      | error e => simp [fetchToken, hfetch, hok, htk]
      | ok t =>
        cases t with
        | none => simp [fetchToken, hfetch, hok, htk]
        | some token =>
          by_cases h0 : token = "" <;> simp [fetchToken, hfetch, hok, htk, h0]
    · simp [fetchToken, hfetch, hok]
  · intro e hfetch
    rw [hres]
    simp [fetchToken, hfetch]
  · intro e he
    have hst : (getBackendToken w st).storage = st := by
      rw [hres] at he
      rw [getBackendToken_refresh w st hv, he]
    rw [hst]
    exact ⟨rfl, rfl, rfl⟩

/-- Witness of C10: an expired cache and a `200` response without a token. -/
theorem getBackendToken_refresh_failure_witness :
    (getBackendToken (tokenlessWorld 1700000000000) cachedStorage).result =
        .error (mkError "No token in backend response") ∧
      (getBackendToken (tokenlessWorld 1700000000000) cachedStorage).storage = cachedStorage := by
  have h := getBackendToken_refresh_failure (tokenlessWorld 1700000000000) cachedStorage
    (Or.inr (Or.inr ⟨"1700000000000", 1700000000000, rfl, by decide, by decide⟩))
  exact ⟨rfl, (h.2.2 _ rfl).1⟩

/-! ## Lemmas on the chat UI -/

theorem getProp_ok_of_ok (v r : JsVal) (key other : String) (h : v.getProp key = .ok r) :
    ∃ m, v.getProp other = .ok m := by
  cases v <;> first | exact ⟨_, rfl⟩ | simp [JsVal.getProp] at h

/-- The transcript after a call of the UI handler on a non-blank input. -/
theorem AIAssistant_sendMessage_messages (w : UiWorld) (st : UiState)
    (h : jsTrim st.inputText ≠ "") :
    (AIAssistant.sendMessage w st).state.messages =
      st.messages ++
        [⟨"user", .str st.inputText, w.timeAtSend, none⟩,
          match (chatAttempt w st.inputText st.storage).result with
          | .ok aiMessage => aiMessage
          | .error _ => ⟨"ai", .str fallbackText, w.timeAtReply, none⟩] := by
  simp only [AIAssistant.sendMessage, h, if_false]
  rcases hc : chatAttempt w st.inputText st.storage with ⟨storage, requests, logs, result⟩
  cases result <;> simp [addMessage]

theorem chatAttempt_success (w : UiWorld) (inputText : String) (storage : Storage)
    (token : String) (response : ChatResponse) (data reply : JsVal)
    (htok : (getBackendToken w.auth storage).result = .ok token)
    (hchat : w.chat = .ok response) (hok : response.ok = true)
    (hjson : response.json = .ok data) (hreply : data.getProp "reply" = .ok reply)
    (htruthy : reply.truthy = true) :
    ∃ model, (chatAttempt w inputText storage).result =
      .ok ⟨"ai", reply, w.timeAtReply, some model⟩ := by
  obtain ⟨m, hm⟩ := getProp_ok_of_ok data reply "reply" "model" hreply
  simp [chatAttempt, htok, hchat, hok, hjson, hreply, htruthy, hm]

theorem chatAttempt_failure (w : UiWorld) (inputText : String) (storage : Storage)
    (hfail : (∃ e, (getBackendToken w.auth storage).result = .error e) ∨
      (∃ e, w.chat = .error e) ∨
      (∃ response, w.chat = .ok response ∧ response.ok = false) ∨
      (∃ response e, w.chat = .ok response ∧ response.json = .error e) ∨
      (∃ response data, w.chat = .ok response ∧ response.json = .ok data ∧
        ∀ reply, data.getProp "reply" = .ok reply → reply.truthy = false)) :
    ∃ f, (chatAttempt w inputText storage).result = .error f := by
  cases htok : (getBackendToken w.auth storage).result with
  | error e => simp [chatAttempt, htok]
  | ok token =>
    cases hchat : w.chat with
    | error e => simp [chatAttempt, htok, hchat]
    | ok response =>
      by_cases hok : response.ok = true
      · cases hjson : response.json with
        | error e => simp [chatAttempt, htok, hchat, hok, hjson]
        | ok data =>
          cases hreply : data.getProp "reply" with
          | error e => simp [chatAttempt, htok, hchat, hok, hjson, hreply]
          | ok reply =>
            have hfalse : reply.truthy = false := by
              rcases hfail with ⟨e, h1⟩ | ⟨e, h1⟩ | ⟨r, h1, h2⟩ | ⟨r, e, h1, h2⟩ |
                ⟨r, d, h1, h2, h3⟩
              · rw [htok] at h1
                cases h1
              · rw [hchat] at h1
                cases h1
              · rw [hchat] at h1
                cases h1
                rw [hok] at h2
                cases h2
              · rw [hchat] at h1
                cases h1
                rw [hjson] at h2
                cases h2
              · rw [hchat] at h1
                cases h1
                rw [hjson] at h2
                cases h2
                exact h3 reply hreply
            simp [chatAttempt, htok, hchat, hok, hjson, hreply, hfalse]
      · cases hjson : response.json with
        | error e =>
          simp [chatAttempt, htok, hchat, hok, hjson, JsVal.getProp]
        | ok data =>
          cases herr : data.getProp "error" with
          | error e => simp [chatAttempt, htok, hchat, hok, hjson, herr]
          | ok errorField =>
            simp [chatAttempt, htok, hchat, hok, hjson, herr]

theorem replies_or_fails (w : UiWorld) (storage : Storage) :
    (∃ reply, RepliesWith w storage reply) ∨ ChatFails w storage := by
  cases htok : (getBackendToken w.auth storage).result with
  | error e => exact Or.inr (Or.inl ⟨e, htok⟩)
  | ok token =>
    cases hchat : w.chat with
    | error e => exact Or.inr (Or.inr (Or.inl ⟨e, hchat⟩))
    | ok response =>
      by_cases hok : response.ok = true
      · cases hjson : response.json with
        | error e => exact Or.inr (Or.inr (Or.inr (Or.inr (Or.inl ⟨response, e, hchat, hjson⟩))))
        | ok data =>
          cases hreply : data.getProp "reply" with
          | error e =>
            refine Or.inr (Or.inr (Or.inr (Or.inr (Or.inr ⟨response, data, hchat, hjson, ?_⟩))))
            intro reply h
            rw [hreply] at h
            cases h
          | ok reply =>
            by_cases ht : reply.truthy = true
            · exact Or.inl ⟨reply, token, response, data, htok, hchat, hok, hjson, hreply, ht⟩
            · refine Or.inr (Or.inr (Or.inr (Or.inr (Or.inr
                ⟨response, data, hchat, hjson, ?_⟩))))
              intro r h
              rw [hreply] at h
              cases h
              simpa using ht
      · exact Or.inr (Or.inr (Or.inr (Or.inl ⟨response, hchat, by simpa using hok⟩)))

/-! ## Claims on the chat UI -/

/-- C11: on a blank input the UI handler appends nothing, makes no call and
changes nothing. On any other input, whatever the outcome of the token
acquisition and of the backend call, it appends the user message and then exactly
one assistant message, whose text is the backend's reply when the response is
successful and carries a non-empty reply, and the fixed fallback text in every
other case (token failure, network error, non-OK status, unreadable body, missing
or empty reply); one of the two cases always applies. -/
theorem AIAssistant_sendMessage_appends (w : UiWorld) (st : UiState) :
    (jsTrim st.inputText = "" →
      AIAssistant.sendMessage w st = { state := st, requests := [], logs := [] }) ∧
    (jsTrim st.inputText ≠ "" →
      ∃ aiText model,
        (AIAssistant.sendMessage w st).state.messages =
          st.messages ++
            [⟨"user", .str st.inputText, w.timeAtSend, none⟩,
              ⟨"ai", aiText, w.timeAtReply, model⟩] ∧
        (∀ reply, RepliesWith w st.storage reply → aiText = reply) ∧
        (ChatFails w st.storage → aiText = .str fallbackText) ∧
        ((∃ reply, RepliesWith w st.storage reply) ∨ ChatFails w st.storage)) := by
  constructor
  · intro h
    simp [AIAssistant.sendMessage, h]
  · intro h
    have hmsg := AIAssistant_sendMessage_messages w st h
    rcases replies_or_fails w st.storage with ⟨reply, hrep⟩ | hfail
    · obtain ⟨token, response, data, htok, hchat, hok, hjson, hreply, ht⟩ := hrep
      obtain ⟨model, hres⟩ := chatAttempt_success w st.inputText st.storage token response
        data reply htok hchat hok hjson hreply ht
      rw [hres] at hmsg
      refine ⟨reply, some model, hmsg, ?_, ?_,
        Or.inl ⟨reply, token, response, data, htok, hchat, hok, hjson, hreply, ht⟩⟩
      · rintro r ⟨token2, response2, data2, _, hchat2, _, hjson2, hreply2, _⟩
        rw [hchat] at hchat2
        cases hchat2
        rw [hjson] at hjson2
        cases hjson2
        rw [hreply] at hreply2
        cases hreply2
        rfl
      · intro hfail
        obtain ⟨f, hf⟩ := chatAttempt_failure w st.inputText st.storage hfail
        rw [hres] at hf
        cases hf
    · obtain ⟨f, hf⟩ := chatAttempt_failure w st.inputText st.storage hfail
      rw [hf] at hmsg
      refine ⟨.str fallbackText, none, hmsg, ?_, fun _ => rfl, Or.inr hfail⟩
      rintro r ⟨token, response, data, htok, hchat, hok, hjson, hreply, ht⟩
      obtain ⟨model, hres⟩ := chatAttempt_success w st.inputText st.storage token response
        data r htok hchat hok hjson hreply ht
      rw [hres] at hf
      cases hf

/-- Witness of C11: a `200` response carrying a reply, and a `500` response
carrying an error body. -/
theorem AIAssistant_sendMessage_appends_witness :
    (∃ model, (AIAssistant.sendMessage
        (uiWorld 200 (.obj [("reply", .str "Take a slow breath."), ("model", .str "nova")]))
        (uiState "hello")).state.messages =
      [⟨"user", .str "hello", "10:00:00", none⟩,
        ⟨"ai", .str "Take a slow breath.", "10:00:02", model⟩]) ∧
    (∃ model, (AIAssistant.sendMessage
        (uiWorld 500 (.obj [("error", .str "Server error"), ("details", .str "db down")]))
        (uiState "hello")).state.messages =
      [⟨"user", .str "hello", "10:00:00", none⟩,
        ⟨"ai", .str fallbackText, "10:00:02", model⟩]) := by
  constructor
  · obtain ⟨aiText, model, hmsg, hrep, _, _⟩ :=
      (AIAssistant_sendMessage_appends
        (uiWorld 200 (.obj [("reply", .str "Take a slow breath."), ("model", .str "nova")]))
        (uiState "hello")).2 (by decide)
    have ht : aiText = .str "Take a slow breath." :=
      hrep _ ⟨"jwt-2", ⟨200, .ok _⟩, _, rfl, rfl, rfl, rfl, rfl, rfl⟩
    rw [ht] at hmsg
    exact ⟨model, hmsg⟩
  · obtain ⟨aiText, model, hmsg, _, hfail, _⟩ :=
      (AIAssistant_sendMessage_appends
        (uiWorld 500 (.obj [("error", .str "Server error"), ("details", .str "db down")]))
        (uiState "hello")).2 (by decide)
    have ht : aiText = .str fallbackText :=
      hfail (Or.inr (Or.inr (Or.inl ⟨⟨500, .ok _⟩, rfl, rfl⟩)))
    rw [ht] at hmsg
    exact ⟨model, hmsg⟩

/-! ## The response count of the relay handler -/

theorem isBlank_str_blank (expr text : String) (h : jsTrim text = "") :
    isBlank expr (.str text) = .ok true := by
  by_cases h0 : text = "" <;> simp [isBlank, JsVal.truthy, callTrim, h0, h]

theorem sendMessage_string_responses (w : World) (userId text : String) :
    (responses (sendMessage w userId (.str text)).trace).length = 1 := by
  by_cases h : jsTrim text = ""
  · simp [sendMessage, isBlank_str_blank "message" text h, resJson, headersSent, responses]
  · rcases sendMessage_cases w userId text h with
      ⟨e, _, hrun⟩ | ⟨c, e, _, _, hrun⟩ | ⟨c, cause, _, _, _, hrun⟩ |
      ⟨c, r, e, _, _, _, _, hrun⟩ | ⟨c, r, c2, _, _, _, _, hrun⟩ <;>
    · rw [hrun]
      simp [responses, relayPrefix]

/-- C12 does not hold on the code. For the JSON body `{message: 123}` the guard
of line 14, which stands outside the `try`, throws (`message.trim` is not a
function): the handler ends without invoking any response-sending call. And when
`encrypt(botResponse)` throws after the reply was sent, the `catch` block invokes
`res.status(500).json(...)` after `res.json(...)`: two response-sending calls. For
a string message, one response is transmitted whatever the collaborators do. -/
theorem sendMessage_response_calls :
    (∀ w userId, (sendMessage w userId (.num 123)).trace = [] ∧
      responseCalls (sendMessage w userId (.num 123)).trace = [] ∧
      (sendMessage w userId (.num 123)).outcome = .error (typeErrorCall "message" "trim")) ∧
    responseCalls (sendMessage (failingStep4World plainEnv) "u1" (.str "hello")).trace =
      [(200, replyBody plainEnv "Hello\nthere"),
        (500, errorBody plainEnv (mkError "cipher failure"))] ∧
    (∀ w userId text, (responses (sendMessage w userId (.str text)).trace).length = 1) := by
  refine ⟨?_, rfl, sendMessage_string_responses⟩
  intro w userId
  have hblank : isBlank "message" (.num 123) = .error (typeErrorCall "message" "trim") := by
    have h0 : ¬ ((123 : ℚ) = 0) := by norm_num
    simp [isBlank, JsVal.truthy, callTrim, h0]
  simp [sendMessage, hblank, responseCalls]

end Mitrasetu
